import Mathlib

/-!
Verification development for the libchess engine (python-chess C++ extension).

The definitions below are a shallow embedding of the C++ sources under
src/libchess.  Boards are 128-slot 0x88 arrays (`List (Option Char)`, a cell
holding the piece symbol or `none` for the null piece), squares are indices
0..63 (the C++ null square, index 64, is modelled with `Option`), and C++
exceptions are modelled with `Except String`, carrying the argument name the
C++ code passes to `std::invalid_argument`.
-/

set_option maxRecDepth 10000
set_option maxHeartbeats 4000000

namespace Libchess

/-- Null character, the C++ value 0 used for "no promotion" / "no ep file". -/
def charZero : Char := Char.ofNat 0

/-- Piece symbols accepted by the `Piece(char symbol)` constructor
(piece.cc): the twelve FEN letters. -/
def isPieceSymbol (c : Char) : Bool :=
  c == 'p' || c == 'n' || c == 'b' || c == 'r' || c == 'q' || c == 'k' ||
  c == 'P' || c == 'N' || c == 'B' || c == 'R' || c == 'Q' || c == 'K'

/-- Color of a valid piece symbol (piece.cc `Piece::color`): uppercase is
white. -/
def pieceColor (c : Char) : Char :=
  if c == c.toUpper then 'w' else 'b'

/-- Type of a valid piece symbol (piece.cc `Piece::type`): the lowercase
letter. -/
def pieceType (c : Char) : Char :=
  c.toLower

/-- Piece symbol from color and type (piece.cc `Piece::from_color_and_type`).
The C++ code throws `invalid_argument("color")` for other colors; every call
site in the engine passes a validated color, so the function is totalised
with the black branch as fallback. -/
def fromColorAndType (color t : Char) : Char :=
  if color == 'w' then t.toUpper else t.toLower

/-- Rank 0..7 of a square index (square.cc `Square::rank`). -/
def sqRank (i : Nat) : Nat := i / 8

/-- File 0..7 of a square index (square.cc `Square::file`). -/
def sqFile (i : Nat) : Nat := i % 8

/-- The 0x88 mailbox index of a square (square.cc `Square::x88_index`):
`file + 16 * (7 - rank)`. -/
def x88Index (i : Nat) : Nat := sqFile i + 16 * (7 - sqRank i)

/-- Square index from a 0x88 index (square.cc `Square::from_x88_index`,
after its range check): `rank = 7 - (x >> 4)`, `file = x & 7`. -/
def fromX88 (x : Nat) : Nat := (7 - x / 16) * 8 + (x % 8)

/-- Checked conversion from a 0x88 index (square.cc
`Square::from_x88_index`): rejects `x < 0`, `x > 128` and indices with a
0x88 bit set, throwing `invalid_argument("x88_index")`. -/
def fromX88E (x : Int) : Except String Nat :=
  if x < 0 || x > 128 || (x.toNat &&& 136 != 0) then .error "x88_index"
  else .ok (fromX88 x.toNat)

/-- On-board test for a 0x88 index used by the generators
(`target_index & 0x88` in C++).  For the values reachable in the engine
(between -33 and 152) a negative two's-complement value always has one of
the mask bits set, so the explicit sign test below agrees with the C++
bitwise test. -/
def onBoardX88 (x : Int) : Bool :=
  decide (0 ≤ x) && decide (x < 128) && (x.toNat &&& 136 == 0)

/-- Name of a square, e.g. `e4` (square.cc `Square::name`). -/
def sqName (i : Nat) : List Char :=
  [Char.ofNat ('a'.toNat + sqFile i), Char.ofNat ('1'.toNat + sqRank i)]

/-- Dark-square test (square.cc `Square::is_dark`): even index. -/
def sqIsDark (i : Nat) : Bool := i % 2 == 0

/-- Backrank test (square.cc `Square::is_backrank`). -/
def sqIsBackrank (i : Nat) : Bool := sqRank i == 0 || sqRank i == 7

/-- Square from a two-character name (square.cc `Square(const std::string&)`),
throwing `invalid_argument("name")` on bad input. -/
def squareFromName (nm : List Char) : Except String Nat :=
  match nm with
  | [c0, c1] =>
    let file : Int := (c0.toNat : Int) - ('a'.toNat : Int)
    let rank : Int := (c1.toNat : Int) - ('1'.toNat : Int)
    if file < 0 || 8 ≤ file || rank < 0 || 8 ≤ rank then .error "name"
    else .ok (rank.toNat * 8 + file.toNat)
  | _ => .error "name"

/-- A move: source and target square index plus promotion character
(move.cpp).  `charZero` means "no promotion". -/
structure Move where
  source : Nat
  target : Nat
  promotion : Char
deriving DecidableEq, Repr

/-- Move without promotion (the two-argument `Move` constructor). -/
def mkMove (s t : Nat) : Move := ⟨s, t, charZero⟩

/-- UCI rendering of a move (move.cpp `Move::uci`). -/
def Move.uci (m : Move) : List Char :=
  if m.promotion.toNat != 0 then sqName m.source ++ sqName m.target ++ [m.promotion]
  else sqName m.source ++ sqName m.target

/-- Move from a UCI string (move.cpp `Move::Move(std::string)`).
The C++ constructor initialises `m_source`/`m_target` but, for strings of
length 4, never writes `m_promotion`; that member then holds an
indeterminate byte.  The parameter `junk` stands for that indeterminate
value. -/
def Move.fromUci (junk : Char) (uci : List Char) : Except String Move := do
  if uci.length == 4 || uci.length == 5 then
    let s ← squareFromName (uci.take 2)
    let t ← squareFromName ((uci.drop 2).take 2)
    if uci.length == 5 then
      let p := (uci.drop 4).headD charZero
      if p == 'r' || p == 'n' || p == 'b' || p == 'q' then .ok ⟨s, t, p⟩
      else .error "uci"
    else
      .ok ⟨s, t, junk⟩
  else
    .error "uci"

/-- Descriptive information about an applied move (move_info). -/
structure MoveInfo where
  move : Move
  piece : Char
  captured : Option Char
  san : List Char
  is_enpassant : Bool
  is_kingside_castle : Bool
  is_queenside_castle : Bool
  is_check : Bool
  is_checkmate : Bool
deriving DecidableEq, Repr

/-- Castle test (move_info.cpp and src/move_info.cc, both drafts):
the C++ body is `m_is_kingside_castle || m_is_kingside_castle`, repeating
the kingside flag. -/
def MoveInfo.is_castle (i : MoveInfo) : Bool :=
  i.is_kingside_castle || i.is_kingside_castle

/-- The position state (position.h): 128-slot 0x88 board, side to move,
en-passant file character (0 = none), halfmove clock, fullmove number and
the four castling-right flags. -/
structure Position where
  board : List (Option Char)
  turn : Char
  ep_file : Char
  half_moves : Nat
  ply : Nat
  white_castle_kingside : Bool
  white_castle_queenside : Bool
  black_castle_kingside : Bool
  black_castle_queenside : Bool
deriving DecidableEq, Repr

/-- Board read through a square index (position.cc `Position::get`). -/
def Position.get (P : Position) (sq : Nat) : Option Char :=
  P.board.getD (x88Index sq) none

/-- Board write through a square index (position.cc `Position::set`). -/
def Position.setSq (P : Position) (sq : Nat) (pc : Option Char) : Position :=
  { P with board := P.board.set (x88Index sq) pc }

/-- Raw board read at a (possibly negative) array offset.  The C++ code
`m_board[i]` has undefined behaviour outside 0..127; such reads are
modelled as empty and are unreachable in the theorems below. -/
def Position.boardAt (P : Position) (i : Int) : Option Char :=
  if 0 ≤ i ∧ i < 128 then P.board.getD i.toNat none else none

/-- The empty board (position.cc `Position::clear_board`). -/
def clearBoard : List (Option Char) := List.replicate 128 none

/-- The standard starting position (position.cc `Position::reset`). -/
def resetPosition : Position :=
  let b0 := clearBoard
  let b1 := (b0.set 112 (some 'R')).set 113 (some 'N') |>.set 114 (some 'B')
    |>.set 115 (some 'Q') |>.set 116 (some 'K') |>.set 117 (some 'B')
    |>.set 118 (some 'N') |>.set 119 (some 'R')
  let b2 := (List.range 8).foldl (fun b j => b.set (96 + j) (some 'P')) b1
  let b3 := (b2.set 0 (some 'r')).set 1 (some 'n') |>.set 2 (some 'b')
    |>.set 3 (some 'q') |>.set 4 (some 'k') |>.set 5 (some 'b')
    |>.set 6 (some 'n') |>.set 7 (some 'r')
  let b4 := (List.range 8).foldl (fun b j => b.set (16 + j) (some 'p')) b3
  { board := b4, turn := 'w', ep_file := charZero, half_moves := 0, ply := 1,
    white_castle_kingside := true, white_castle_queenside := true,
    black_castle_kingside := true, black_castle_queenside := true }

/-- Turn toggle (position.cc `Position::toggle_turn`). -/
def toggleTurn (P : Position) : Position :=
  { P with turn := if P.turn == 'w' then 'b' else 'w' }

/-- En-passant file setter (position.cc `Position::set_ep_file`, identical
in position.cpp).  The `switch` has no `break` between the `'-'`/`0` arm
and the `default:` arm, so those legal inputs store 0 and then fall through
to `throw std::invalid_argument("ep_file")`; the mutation is lost to the
caller because the exception propagates. -/
def setEpFile (P : Position) (c : Char) : Except String Position :=
  if c == 'a' || c == 'b' || c == 'c' || c == 'd' ||
     c == 'e' || c == 'f' || c == 'g' || c == 'h' then
    .ok { P with ep_file := c }
  else
    .error "ep_file"

/-- Derived en-passant square (position.cc `Position::get_ep_square`):
requires `ep_file` set, the arrival square empty, and a pawn on the
intermediate rank.  Under the representation invariant `ep_file` is a file
letter, so the `Square(rank, file)` constructor cannot throw. -/
def getEpSquare (P : Position) : Option Nat :=
  if P.ep_file.toNat != 0 then
    let rank := if P.turn == 'b' then 2 else 5
    let pawn_rank := if P.turn == 'b' then 3 else 4
    let file := P.ep_file.toNat - 'a'.toNat
    let square := rank * 8 + file
    if (P.get square).isSome then none
    else
      match P.get (pawn_rank * 8 + file) with
      | none => none
      | some pc => if pieceType pc != 'p' then none else some square
  else none

/-- Real en-passant square (position.cc `Position::get_real_ep_square`).
The C++ loop reads `m_board[offset]` with `offset = ±17, ±15` — an absolute
array index, not an offset from the en-passant square (and negative, hence
out of bounds, when black is to move). -/
def getRealEpSquare (P : Position) : Option Nat :=
  match getEpSquare P with
  | none => none
  | some eps =>
    let check := fun (o : Int) =>
      let o' := if P.turn == 'w' then o else -o
      match P.boardAt o' with
      | some pc => pieceType pc == 'p' && pieceColor pc == P.turn
      | none => false
    if check 17 || check 15 then some eps else none

/-! ### FEN rendering and parsing (position.cc `Position::fen` / `set_fen`) -/

/-- Pending-empty-run flush: the C++ code keeps a character counter `empty`
(starting at '0') and appends it when non-zero. -/
def digitFlush (e : Nat) : List Char :=
  if e != 0 then [Char.ofNat ('0'.toNat + e)] else []

/-- Processing of one board cell by the rendering loop of `Position::fen`:
a piece flushes the pending empty run, an empty square extends it. -/
def cellStep (c : Option Char) (st : List Char × Nat) : List Char × Nat :=
  match c with
  | some pc => (st.1 ++ digitFlush st.2 ++ [pc], 0)
  | none => (st.1, st.2 + 1)

/-- One step of the board-rendering loop of `Position::fen` at loop index
`i` (0..127): sentinel slots are skipped, and the end of each rank but the
last flushes the run and appends a `/`. -/
def fenBoardStep (board : List (Option Char)) (st : List Char × Nat) (i : Nat) :
    List Char × Nat :=
  if i &&& 136 == 0 then
    let st1 := cellStep (board.getD i none) st
    if i != 119 && i % 16 == 7 then (st1.1 ++ digitFlush st1.2 ++ ['/'], 0)
    else st1
  else st

/-- Board field of the FEN (the first loop of `Position::fen`). -/
def fenBoard (board : List (Option Char)) : List Char :=
  let st := (List.range 128).foldl (fenBoardStep board) ([], 0)
  st.1 ++ digitFlush st.2

/-- The cells of board row `k` (rank `7 - k`), in 0x88 order. -/
def rankCells (board : List (Option Char)) (k : Nat) : List (Option Char) :=
  (List.range 8).map (fun j => board.getD (16 * k + j) none)

/-- Scan of one rank's cells by `cellStep` from the empty state. -/
def rankScan (cells : List (Option Char)) : List Char × Nat :=
  cells.foldl (fun st c => cellStep c st) ([], 0)

/-- The FEN text of one rank: its scan output with the trailing empty run
flushed. -/
def rankBody (cells : List (Option Char)) : List Char :=
  (rankScan cells).1 ++ digitFlush (rankScan cells).2

/-- Decimal digits of a natural number, most significant first
(`boost::lexical_cast<std::string>` on a non-negative int). -/
def natToChars (n : Nat) : List Char :=
  if _h : n < 10 then [Char.ofNat ('0'.toNat + n)]
  else natToChars (n / 10) ++ [Char.ofNat ('0'.toNat + n % 10)]
decreasing_by exact Nat.div_lt_self (by omega) (by omega)

/-- Numeric value of a decimal digit string
(`boost::lexical_cast<int>` on a validated numeral). -/
def charsToNat (l : List Char) : Nat :=
  l.foldl (fun a c => a * 10 + (c.toNat - '0'.toNat)) 0

/-- Castling field of the FEN. -/
def fenCastle (P : Position) : List Char :=
  if P.white_castle_kingside || P.white_castle_queenside ||
     P.black_castle_kingside || P.black_castle_queenside then
    (if P.white_castle_kingside then ['K'] else []) ++
    (if P.white_castle_queenside then ['Q'] else []) ++
    (if P.black_castle_kingside then ['k'] else []) ++
    (if P.black_castle_queenside then ['q'] else [])
  else ['-']

/-- En-passant field of the FEN: the derived ep square's name or `-`. -/
def fenEp (P : Position) : List Char :=
  match getEpSquare P with
  | some sq => sqName sq
  | none => ['-']

/-- FEN rendering (position.cc `Position::fen`): six space-separated
fields. -/
def Position.fen (P : Position) : List Char :=
  fenBoard P.board ++ [' '] ++ [P.turn] ++ [' '] ++ fenCastle P ++ [' '] ++
  fenEp P ++ [' '] ++ natToChars P.half_moves ++ [' '] ++ natToChars P.ply

/-- Separator test of the FEN splitter (`boost::is_any_of("\t ")`). -/
def isWs (c : Char) : Bool := c == ' ' || c == '\t'

/-- Plain split at every separator character (boost::split without token
compression, as used for the `/`-separated board ranks). -/
def splitAt1 (sep : Char) : List Char → List (List Char) → List Char → List (List Char)
  | [], acc, cur => (acc ++ [cur.reverse])
  | c :: cs, acc, cur =>
    if c == sep then splitAt1 sep cs (acc ++ [cur.reverse]) []
    else splitAt1 sep cs acc (c :: cur)

/-- Split on `/` (token compression off). -/
def splitSlash (l : List Char) : List (List Char) := splitAt1 '/' l [] []

/-- Split on blanks and tabs with `token_compress_on`: runs of separators
produce a single boundary, so the interior empty tokens of the plain split
are dropped (a leading or trailing separator still yields an empty first or
last token, as in boost). -/
def splitWs (l : List Char) : List (List Char) :=
  match l.splitOnP isWs with
  | [] => []
  | [x] => [x]
  | x :: rest =>
    x :: ((rest.dropLast.filter (fun t => !t.isEmpty)) ++ [rest.getLastD []])

/-- Validation of one board rank of a FEN (the row loop of
`Position::set_fen` in position.cc): digits 1..8 expand to empties and may
not be adjacent, piece letters count one square, anything else is invalid;
the rank must account for exactly 8 squares. -/
def rowStep (st : Option (Nat × Bool)) (c : Char) : Option (Nat × Bool) :=
  match st with
  | none => none
  | some (sum, prev) =>
    if '1' ≤ c && c ≤ '8' then
      if prev then none else some (sum + (c.toNat - '0'.toNat), true)
    else if isPieceSymbol c then some (sum + 1, false)
    else none

/-- Acceptance of one validated rank: the scan succeeded and accounted for
exactly 8 squares. -/
def rowOk (row : List Char) : Bool :=
  match row.foldl rowStep (some (0, false)) with
  | some (sum, _) => sum == 8
  | none => false

/-- Subsequence test used to express the castling regex. -/
def isSubseqOf : List Char → List Char → Bool
  | [], _ => true
  | _ :: _, [] => false
  | c :: cs, d :: ds => if c == d then isSubseqOf cs ds else isSubseqOf (c :: cs) ds

/-- Validation of the castling field: the regular expression
`^(KQ?k?q?|Qk?q?|kq?|q|-)$` matches exactly the fifteen non-empty in-order
subsequences of `KQkq`, plus `-`. -/
def castleOk (s : List Char) : Bool :=
  s == ['-'] || (!s.isEmpty && isSubseqOf s ['K', 'Q', 'k', 'q'])

/-- Validation of the en-passant field: `-` or `[a-h][36]`. -/
def epOk (s : List Char) : Bool :=
  s == ['-'] ||
  (match s with
   | [c0, c1] => 'a' ≤ c0 && c0 ≤ 'h' && (c1 == '3' || c1 == '6')
   | _ => false)

/-- Digit test. -/
def isDigitChar (c : Char) : Bool := '0' ≤ c && c ≤ '9'

/-- Validation of the halfmove field: the regex `^0|[1-9][0-9]*$` accepts
the string `0` or a numeral without leading zero. -/
def halfOk (s : List Char) : Bool :=
  s == ['0'] ||
  (match s with
   | c :: cs => '1' ≤ c && c ≤ '9' && cs.all isDigitChar
   | [] => false)

/-- Validation of the fullmove field: the regex `^[1-9][0-9]*$`. -/
def plyOk (s : List Char) : Bool :=
  match s with
  | c :: cs => '1' ≤ c && c ≤ '9' && cs.all isDigitChar
  | [] => false

/-- Board construction from the validated board field (the placement loop
of `Position::set_fen`): a cursor walks the 0x88 indices, `/` advances by
8 (over the sentinel half-rank), digits skip empties. -/
def buildStep (st : List (Option Char) × Nat) (c : Char) : List (Option Char) × Nat :=
  if c == '/' then (st.1, st.2 + 8)
  else if '1' ≤ c && c ≤ '8' then (st.1, st.2 + (c.toNat - '0'.toNat))
  else (st.1.set st.2 (some c), st.2 + 1)

/-- The board resulting from the placement loop. -/
def buildBoard (s : List Char) : List (Option Char) :=
  (s.foldl buildStep (clearBoard, 0)).1

/-- Castling flags from the validated castling field (the flag loop of
`Position::set_fen`). -/
def buildCastles (s : List Char) : Bool × Bool × Bool × Bool :=
  s.foldl
    (fun (st : Bool × Bool × Bool × Bool) c =>
      let (wk, wq, bk, bq) := st
      if c == 'K' then (true, wq, bk, bq)
      else if c == 'Q' then (wk, true, bk, bq)
      else if c == 'k' then (wk, wq, true, bq)
      else if c == 'q' then (wk, wq, bk, true)
      else st)
    (false, false, false, false)

/-- FEN parsing (position.cc `Position::set_fen`): exactly six fields,
all validated before any state is replaced; throws
`invalid_argument("fen")` on any deviation. -/
def setFen (fen : List Char) : Except String Position :=
  let parts := splitWs fen
  if parts.length != 6 then .error "fen"
  else
    let p0 := parts.getD 0 []
    let p1 := parts.getD 1 []
    let p2 := parts.getD 2 []
    let p3 := parts.getD 3 []
    let p4 := parts.getD 4 []
    let p5 := parts.getD 5 []
    let rows := splitSlash p0
    if rows.length != 8 then .error "fen"
    else if !(rows.all rowOk) then .error "fen"
    else if p1 != ['w'] && p1 != ['b'] then .error "fen"
    else if !castleOk p2 then .error "fen"
    else if !epOk p3 then .error "fen"
    else if !halfOk p4 then .error "fen"
    else if !plyOk p5 then .error "fen"
    else
      let (wk, wq, bk, bq) := buildCastles p2
      .ok
        { board := buildBoard p0
          turn := p1.headD 'w'
          ep_file := if p3.headD '-' == '-' then charZero else p3.headD '-'
          half_moves := charsToNat p4
          ply := charsToNat p5
          white_castle_kingside := wk
          white_castle_queenside := wq
          black_castle_kingside := bk
          black_castle_queenside := bq }

/-- The standard starting FEN (position.h `START_FEN`). -/
def startFen : List Char :=
  ("rnbqkbnr/pppppppp/8/8/8/8/PPPPPPPP/RNBQKBNR w KQkq - 0 1").toList

/-- The 781-entry Polyglot random table (position.cc
`POLYGLOT_RANDOM_ARRAY`, identical in position.cpp). -/
def polyglotRandomArray : List Nat := [
  0x9D39247E33776D41, 0x2AF7398005AAA5C7, 0x44DB015024623547, 0x9C15F73E62A76AE2,
  0x75834465489C0C89, 0x3290AC3A203001BF, 0x0FBBAD1F61042279, 0xE83A908FF2FB60CA,
  0x0D7E765D58755C10, 0x1A083822CEAFE02D, 0x9605D5F0E25EC3B0, 0xD021FF5CD13A2ED5,
  0x40BDF15D4A672E32, 0x011355146FD56395, 0x5DB4832046F3D9E5, 0x239F8B2D7FF719CC,
  0x05D1A1AE85B49AA1, 0x679F848F6E8FC971, 0x7449BBFF801FED0B, 0x7D11CDB1C3B7ADF0,
  0x82C7709E781EB7CC, 0xF3218F1C9510786C, 0x331478F3AF51BBE6, 0x4BB38DE5E7219443,
  0xAA649C6EBCFD50FC, 0x8DBD98A352AFD40B, 0x87D2074B81D79217, 0x19F3C751D3E92AE1,
  0xB4AB30F062B19ABF, 0x7B0500AC42047AC4, 0xC9452CA81A09D85D, 0x24AA6C514DA27500,
  0x4C9F34427501B447, 0x14A68FD73C910841, 0xA71B9B83461CBD93, 0x03488B95B0F1850F,
  0x637B2B34FF93C040, 0x09D1BC9A3DD90A94, 0x3575668334A1DD3B, 0x735E2B97A4C45A23,
  0x18727070F1BD400B, 0x1FCBACD259BF02E7, 0xD310A7C2CE9B6555, 0xBF983FE0FE5D8244,
  0x9F74D14F7454A824, 0x51EBDC4AB9BA3035, 0x5C82C505DB9AB0FA, 0xFCF7FE8A3430B241,
  0x3253A729B9BA3DDE, 0x8C74C368081B3075, 0xB9BC6C87167C33E7, 0x7EF48F2B83024E20,
  0x11D505D4C351BD7F, 0x6568FCA92C76A243, 0x4DE0B0F40F32A7B8, 0x96D693460CC37E5D,
  0x42E240CB63689F2F, 0x6D2BDCDAE2919661, 0x42880B0236E4D951, 0x5F0F4A5898171BB6,
  0x39F890F579F92F88, 0x93C5B5F47356388B, 0x63DC359D8D231B78, 0xEC16CA8AEA98AD76,
  0x5355F900C2A82DC7, 0x07FB9F855A997142, 0x5093417AA8A7ED5E, 0x7BCBC38DA25A7F3C,
  0x19FC8A768CF4B6D4, 0x637A7780DECFC0D9, 0x8249A47AEE0E41F7, 0x79AD695501E7D1E8,
  0x14ACBAF4777D5776, 0xF145B6BECCDEA195, 0xDABF2AC8201752FC, 0x24C3C94DF9C8D3F6,
  0xBB6E2924F03912EA, 0x0CE26C0B95C980D9, 0xA49CD132BFBF7CC4, 0xE99D662AF4243939,
  0x27E6AD7891165C3F, 0x8535F040B9744FF1, 0x54B3F4FA5F40D873, 0x72B12C32127FED2B,
  0xEE954D3C7B411F47, 0x9A85AC909A24EAA1, 0x70AC4CD9F04F21F5, 0xF9B89D3E99A075C2,
  0x87B3E2B2B5C907B1, 0xA366E5B8C54F48B8, 0xAE4A9346CC3F7CF2, 0x1920C04D47267BBD,
  0x87BF02C6B49E2AE9, 0x092237AC237F3859, 0xFF07F64EF8ED14D0, 0x8DE8DCA9F03CC54E,
  0x9C1633264DB49C89, 0xB3F22C3D0B0B38ED, 0x390E5FB44D01144B, 0x5BFEA5B4712768E9,
  0x1E1032911FA78984, 0x9A74ACB964E78CB3, 0x4F80F7A035DAFB04, 0x6304D09A0B3738C4,
  0x2171E64683023A08, 0x5B9B63EB9CEFF80C, 0x506AACF489889342, 0x1881AFC9A3A701D6,
  0x6503080440750644, 0xDFD395339CDBF4A7, 0xEF927DBCF00C20F2, 0x7B32F7D1E03680EC,
  0xB9FD7620E7316243, 0x05A7E8A57DB91B77, 0xB5889C6E15630A75, 0x4A750A09CE9573F7,
  0xCF464CEC899A2F8A, 0xF538639CE705B824, 0x3C79A0FF5580EF7F, 0xEDE6C87F8477609D,
  0x799E81F05BC93F31, 0x86536B8CF3428A8C, 0x97D7374C60087B73, 0xA246637CFF328532,
  0x043FCAE60CC0EBA0, 0x920E449535DD359E, 0x70EB093B15B290CC, 0x73A1921916591CBD,
  0x56436C9FE1A1AA8D, 0xEFAC4B70633B8F81, 0xBB215798D45DF7AF, 0x45F20042F24F1768,
  0x930F80F4E8EB7462, 0xFF6712FFCFD75EA1, 0xAE623FD67468AA70, 0xDD2C5BC84BC8D8FC,
  0x7EED120D54CF2DD9, 0x22FE545401165F1C, 0xC91800E98FB99929, 0x808BD68E6AC10365,
  0xDEC468145B7605F6, 0x1BEDE3A3AEF53302, 0x43539603D6C55602, 0xAA969B5C691CCB7A,
  0xA87832D392EFEE56, 0x65942C7B3C7E11AE, 0xDED2D633CAD004F6, 0x21F08570F420E565,
  0xB415938D7DA94E3C, 0x91B859E59ECB6350, 0x10CFF333E0ED804A, 0x28AED140BE0BB7DD,
  0xC5CC1D89724FA456, 0x5648F680F11A2741, 0x2D255069F0B7DAB3, 0x9BC5A38EF729ABD4,
  0xEF2F054308F6A2BC, 0xAF2042F5CC5C2858, 0x480412BAB7F5BE2A, 0xAEF3AF4A563DFE43,
  0x19AFE59AE451497F, 0x52593803DFF1E840, 0xF4F076E65F2CE6F0, 0x11379625747D5AF3,
  0xBCE5D2248682C115, 0x9DA4243DE836994F, 0x066F70B33FE09017, 0x4DC4DE189B671A1C,
  0x51039AB7712457C3, 0xC07A3F80C31FB4B4, 0xB46EE9C5E64A6E7C, 0xB3819A42ABE61C87,
  0x21A007933A522A20, 0x2DF16F761598AA4F, 0x763C4A1371B368FD, 0xF793C46702E086A0,
  0xD7288E012AEB8D31, 0xDE336A2A4BC1C44B, 0x0BF692B38D079F23, 0x2C604A7A177326B3,
  0x4850E73E03EB6064, 0xCFC447F1E53C8E1B, 0xB05CA3F564268D99, 0x9AE182C8BC9474E8,
  0xA4FC4BD4FC5558CA, 0xE755178D58FC4E76, 0x69B97DB1A4C03DFE, 0xF9B5B7C4ACC67C96,
  0xFC6A82D64B8655FB, 0x9C684CB6C4D24417, 0x8EC97D2917456ED0, 0x6703DF9D2924E97E,
  0xC547F57E42A7444E, 0x78E37644E7CAD29E, 0xFE9A44E9362F05FA, 0x08BD35CC38336615,
  0x9315E5EB3A129ACE, 0x94061B871E04DF75, 0xDF1D9F9D784BA010, 0x3BBA57B68871B59D,
  0xD2B7ADEEDED1F73F, 0xF7A255D83BC373F8, 0xD7F4F2448C0CEB81, 0xD95BE88CD210FFA7,
  0x336F52F8FF4728E7, 0xA74049DAC312AC71, 0xA2F61BB6E437FDB5, 0x4F2A5CB07F6A35B3,
  0x87D380BDA5BF7859, 0x16B9F7E06C453A21, 0x7BA2484C8A0FD54E, 0xF3A678CAD9A2E38C,
  0x39B0BF7DDE437BA2, 0xFCAF55C1BF8A4424, 0x18FCF680573FA594, 0x4C0563B89F495AC3,
  0x40E087931A00930D, 0x8CFFA9412EB642C1, 0x68CA39053261169F, 0x7A1EE967D27579E2,
  0x9D1D60E5076F5B6F, 0x3810E399B6F65BA2, 0x32095B6D4AB5F9B1, 0x35CAB62109DD038A,
  0xA90B24499FCFAFB1, 0x77A225A07CC2C6BD, 0x513E5E634C70E331, 0x4361C0CA3F692F12,
  0xD941ACA44B20A45B, 0x528F7C8602C5807B, 0x52AB92BEB9613989, 0x9D1DFA2EFC557F73,
  0x722FF175F572C348, 0x1D1260A51107FE97, 0x7A249A57EC0C9BA2, 0x04208FE9E8F7F2D6,
  0x5A110C6058B920A0, 0x0CD9A497658A5698, 0x56FD23C8F9715A4C, 0x284C847B9D887AAE,
  0x04FEABFBBDB619CB, 0x742E1E651C60BA83, 0x9A9632E65904AD3C, 0x881B82A13B51B9E2,
  0x506E6744CD974924, 0xB0183DB56FFC6A79, 0x0ED9B915C66ED37E, 0x5E11E86D5873D484,
  0xF678647E3519AC6E, 0x1B85D488D0F20CC5, 0xDAB9FE6525D89021, 0x0D151D86ADB73615,
  0xA865A54EDCC0F019, 0x93C42566AEF98FFB, 0x99E7AFEABE000731, 0x48CBFF086DDF285A,
  0x7F9B6AF1EBF78BAF, 0x58627E1A149BBA21, 0x2CD16E2ABD791E33, 0xD363EFF5F0977996,
  0x0CE2A38C344A6EED, 0x1A804AADB9CFA741, 0x907F30421D78C5DE, 0x501F65EDB3034D07,
  0x37624AE5A48FA6E9, 0x957BAF61700CFF4E, 0x3A6C27934E31188A, 0xD49503536ABCA345,
  0x088E049589C432E0, 0xF943AEE7FEBF21B8, 0x6C3B8E3E336139D3, 0x364F6FFA464EE52E,
  0xD60F6DCEDC314222, 0x56963B0DCA418FC0, 0x16F50EDF91E513AF, 0xEF1955914B609F93,
  0x565601C0364E3228, 0xECB53939887E8175, 0xBAC7A9A18531294B, 0xB344C470397BBA52,
  0x65D34954DAF3CEBD, 0xB4B81B3FA97511E2, 0xB422061193D6F6A7, 0x071582401C38434D,
  0x7A13F18BBEDC4FF5, 0xBC4097B116C524D2, 0x59B97885E2F2EA28, 0x99170A5DC3115544,
  0x6F423357E7C6A9F9, 0x325928EE6E6F8794, 0xD0E4366228B03343, 0x565C31F7DE89EA27,
  0x30F5611484119414, 0xD873DB391292ED4F, 0x7BD94E1D8E17DEBC, 0xC7D9F16864A76E94,
  0x947AE053EE56E63C, 0xC8C93882F9475F5F, 0x3A9BF55BA91F81CA, 0xD9A11FBB3D9808E4,
  0x0FD22063EDC29FCA, 0xB3F256D8ACA0B0B9, 0xB03031A8B4516E84, 0x35DD37D5871448AF,
  0xE9F6082B05542E4E, 0xEBFAFA33D7254B59, 0x9255ABB50D532280, 0xB9AB4CE57F2D34F3,
  0x693501D628297551, 0xC62C58F97DD949BF, 0xCD454F8F19C5126A, 0xBBE83F4ECC2BDECB,
  0xDC842B7E2819E230, 0xBA89142E007503B8, 0xA3BC941D0A5061CB, 0xE9F6760E32CD8021,
  0x09C7E552BC76492F, 0x852F54934DA55CC9, 0x8107FCCF064FCF56, 0x098954D51FFF6580,
  0x23B70EDB1955C4BF, 0xC330DE426430F69D, 0x4715ED43E8A45C0A, 0xA8D7E4DAB780A08D,
  0x0572B974F03CE0BB, 0xB57D2E985E1419C7, 0xE8D9ECBE2CF3D73F, 0x2FE4B17170E59750,
  0x11317BA87905E790, 0x7FBF21EC8A1F45EC, 0x1725CABFCB045B00, 0x964E915CD5E2B207,
  0x3E2B8BCBF016D66D, 0xBE7444E39328A0AC, 0xF85B2B4FBCDE44B7, 0x49353FEA39BA63B1,
  0x1DD01AAFCD53486A, 0x1FCA8A92FD719F85, 0xFC7C95D827357AFA, 0x18A6A990C8B35EBD,
  0xCCCB7005C6B9C28D, 0x3BDBB92C43B17F26, 0xAA70B5B4F89695A2, 0xE94C39A54A98307F,
  0xB7A0B174CFF6F36E, 0xD4DBA84729AF48AD, 0x2E18BC1AD9704A68, 0x2DE0966DAF2F8B1C,
  0xB9C11D5B1E43A07E, 0x64972D68DEE33360, 0x94628D38D0C20584, 0xDBC0D2B6AB90A559,
  0xD2733C4335C6A72F, 0x7E75D99D94A70F4D, 0x6CED1983376FA72B, 0x97FCAACBF030BC24,
  0x7B77497B32503B12, 0x8547EDDFB81CCB94, 0x79999CDFF70902CB, 0xCFFE1939438E9B24,
  0x829626E3892D95D7, 0x92FAE24291F2B3F1, 0x63E22C147B9C3403, 0xC678B6D860284A1C,
  0x5873888850659AE7, 0x0981DCD296A8736D, 0x9F65789A6509A440, 0x9FF38FED72E9052F,
  0xE479EE5B9930578C, 0xE7F28ECD2D49EECD, 0x56C074A581EA17FE, 0x5544F7D774B14AEF,
  0x7B3F0195FC6F290F, 0x12153635B2C0CF57, 0x7F5126DBBA5E0CA7, 0x7A76956C3EAFB413,
  0x3D5774A11D31AB39, 0x8A1B083821F40CB4, 0x7B4A38E32537DF62, 0x950113646D1D6E03,
  0x4DA8979A0041E8A9, 0x3BC36E078F7515D7, 0x5D0A12F27AD310D1, 0x7F9D1A2E1EBE1327,
  0xDA3A361B1C5157B1, 0xDCDD7D20903D0C25, 0x36833336D068F707, 0xCE68341F79893389,
  0xAB9090168DD05F34, 0x43954B3252DC25E5, 0xB438C2B67F98E5E9, 0x10DCD78E3851A492,
  0xDBC27AB5447822BF, 0x9B3CDB65F82CA382, 0xB67B7896167B4C84, 0xBFCED1B0048EAC50,
  0xA9119B60369FFEBD, 0x1FFF7AC80904BF45, 0xAC12FB171817EEE7, 0xAF08DA9177DDA93D,
  0x1B0CAB936E65C744, 0xB559EB1D04E5E932, 0xC37B45B3F8D6F2BA, 0xC3A9DC228CAAC9E9,
  0xF3B8B6675A6507FF, 0x9FC477DE4ED681DA, 0x67378D8ECCEF96CB, 0x6DD856D94D259236,
  0xA319CE15B0B4DB31, 0x073973751F12DD5E, 0x8A8E849EB32781A5, 0xE1925C71285279F5,
  0x74C04BF1790C0EFE, 0x4DDA48153C94938A, 0x9D266D6A1CC0542C, 0x7440FB816508C4FE,
  0x13328503DF48229F, 0xD6BF7BAEE43CAC40, 0x4838D65F6EF6748F, 0x1E152328F3318DEA,
  0x8F8419A348F296BF, 0x72C8834A5957B511, 0xD7A023A73260B45C, 0x94EBC8ABCFB56DAE,
  0x9FC10D0F989993E0, 0xDE68A2355B93CAE6, 0xA44CFE79AE538BBE, 0x9D1D84FCCE371425,
  0x51D2B1AB2DDFB636, 0x2FD7E4B9E72CD38C, 0x65CA5B96B7552210, 0xDD69A0D8AB3B546D,
  0x604D51B25FBF70E2, 0x73AA8A564FB7AC9E, 0x1A8C1E992B941148, 0xAAC40A2703D9BEA0,
  0x764DBEAE7FA4F3A6, 0x1E99B96E70A9BE8B, 0x2C5E9DEB57EF4743, 0x3A938FEE32D29981,
  0x26E6DB8FFDF5ADFE, 0x469356C504EC9F9D, 0xC8763C5B08D1908C, 0x3F6C6AF859D80055,
  0x7F7CC39420A3A545, 0x9BFB227EBDF4C5CE, 0x89039D79D6FC5C5C, 0x8FE88B57305E2AB6,
  0xA09E8C8C35AB96DE, 0xFA7E393983325753, 0xD6B6D0ECC617C699, 0xDFEA21EA9E7557E3,
  0xB67C1FA481680AF8, 0xCA1E3785A9E724E5, 0x1CFC8BED0D681639, 0xD18D8549D140CAEA,
  0x4ED0FE7E9DC91335, 0xE4DBF0634473F5D2, 0x1761F93A44D5AEFE, 0x53898E4C3910DA55,
  0x734DE8181F6EC39A, 0x2680B122BAA28D97, 0x298AF231C85BAFAB, 0x7983EED3740847D5,
  0x66C1A2A1A60CD889, 0x9E17E49642A3E4C1, 0xEDB454E7BADC0805, 0x50B704CAB602C329,
  0x4CC317FB9CDDD023, 0x66B4835D9EAFEA22, 0x219B97E26FFC81BD, 0x261E4E4C0A333A9D,
  0x1FE2CCA76517DB90, 0xD7504DFA8816EDBB, 0xB9571FA04DC089C8, 0x1DDC0325259B27DE,
  0xCF3F4688801EB9AA, 0xF4F5D05C10CAB243, 0x38B6525C21A42B0E, 0x36F60E2BA4FA6800,
  0xEB3593803173E0CE, 0x9C4CD6257C5A3603, 0xAF0C317D32ADAA8A, 0x258E5A80C7204C4B,
  0x8B889D624D44885D, 0xF4D14597E660F855, 0xD4347F66EC8941C3, 0xE699ED85B0DFB40D,
  0x2472F6207C2D0484, 0xC2A1E7B5B459AEB5, 0xAB4F6451CC1D45EC, 0x63767572AE3D6174,
  0xA59E0BD101731A28, 0x116D0016CB948F09, 0x2CF9C8CA052F6E9F, 0x0B090A7560A968E3,
  0xABEEDDB2DDE06FF1, 0x58EFC10B06A2068D, 0xC6E57A78FBD986E0, 0x2EAB8CA63CE802D7,
  0x14A195640116F336, 0x7C0828DD624EC390, 0xD74BBE77E6116AC7, 0x804456AF10F5FB53,
  0xEBE9EA2ADF4321C7, 0x03219A39EE587A30, 0x49787FEF17AF9924, 0xA1E9300CD8520548,
  0x5B45E522E4B1B4EF, 0xB49C3B3995091A36, 0xD4490AD526F14431, 0x12A8F216AF9418C2,
  0x001F837CC7350524, 0x1877B51E57A764D5, 0xA2853B80F17F58EE, 0x993E1DE72D36D310,
  0xB3598080CE64A656, 0x252F59CF0D9F04BB, 0xD23C8E176D113600, 0x1BDA0492E7E4586E,
  0x21E0BD5026C619BF, 0x3B097ADAF088F94E, 0x8D14DEDB30BE846E, 0xF95CFFA23AF5F6F4,
  0x3871700761B3F743, 0xCA672B91E9E4FA16, 0x64C8E531BFF53B55, 0x241260ED4AD1E87D,
  0x106C09B972D2E822, 0x7FBA195410E5CA30, 0x7884D9BC6CB569D8, 0x0647DFEDCD894A29,
  0x63573FF03E224774, 0x4FC8E9560F91B123, 0x1DB956E450275779, 0xB8D91274B9E9D4FB,
  0xA2EBEE47E2FBFCE1, 0xD9F1F30CCD97FB09, 0xEFED53D75FD64E6B, 0x2E6D02C36017F67F,
  0xA9AA4D20DB084E9B, 0xB64BE8D8B25396C1, 0x70CB6AF7C2D5BCF0, 0x98F076A4F7A2322E,
  0xBF84470805E69B5F, 0x94C3251F06F90CF3, 0x3E003E616A6591E9, 0xB925A6CD0421AFF3,
  0x61BDD1307C66E300, 0xBF8D5108E27E0D48, 0x240AB57A8B888B20, 0xFC87614BAF287E07,
  0xEF02CDD06FFDB432, 0xA1082C0466DF6C0A, 0x8215E577001332C8, 0xD39BB9C3A48DB6CF,
  0x2738259634305C14, 0x61CF4F94C97DF93D, 0x1B6BACA2AE4E125B, 0x758F450C88572E0B,
  0x959F587D507A8359, 0xB063E962E045F54D, 0x60E8ED72C0DFF5D1, 0x7B64978555326F9F,
  0xFD080D236DA814BA, 0x8C90FD9B083F4558, 0x106F72FE81E2C590, 0x7976033A39F7D952,
  0xA4EC0132764CA04B, 0x733EA705FAE4FA77, 0xB4D8F77BC3E56167, 0x9E21F4F903B33FD9,
  0x9D765E419FB69F6D, 0xD30C088BA61EA5EF, 0x5D94337FBFAF7F5B, 0x1A4E4822EB4D7A59,
  0x6FFE73E81B637FB3, 0xDDF957BC36D8B9CA, 0x64D0E29EEA8838B3, 0x08DD9BDFD96B9F63,
  0x087E79E5A57D1D13, 0xE328E230E3E2B3FB, 0x1C2559E30F0946BE, 0x720BF5F26F4D2EAA,
  0xB0774D261CC609DB, 0x443F64EC5A371195, 0x4112CF68649A260E, 0xD813F2FAB7F5C5CA,
  0x660D3257380841EE, 0x59AC2C7873F910A3, 0xE846963877671A17, 0x93B633ABFA3469F8,
  0xC0C0F5A60EF4CDCF, 0xCAF21ECD4377B28C, 0x57277707199B8175, 0x506C11B9D90E8B1D,
  0xD83CC2687A19255F, 0x4A29C6465A314CD1, 0xED2DF21216235097, 0xB5635C95FF7296E2,
  0x22AF003AB672E811, 0x52E762596BF68235, 0x9AEBA33AC6ECC6B0, 0x944F6DE09134DFB6,
  0x6C47BEC883A7DE39, 0x6AD047C430A12104, 0xA5B1CFDBA0AB4067, 0x7C45D833AFF07862,
  0x5092EF950A16DA0B, 0x9338E69C052B8E7B, 0x455A4B4CFE30E3F5, 0x6B02E63195AD0CF8,
  0x6B17B224BAD6BF27, 0xD1E0CCD25BB9C169, 0xDE0C89A556B9AE70, 0x50065E535A213CF6,
  0x9C1169FA2777B874, 0x78EDEFD694AF1EED, 0x6DC93D9526A50E68, 0xEE97F453F06791ED,
  0x32AB0EDB696703D3, 0x3A6853C7E70757A7, 0x31865CED6120F37D, 0x67FEF95D92607890,
  0x1F2B1D1F15F6DC9C, 0xB69E38A8965C6B65, 0xAA9119FF184CCCF4, 0xF43C732873F24C13,
  0xFB4A3D794A9A80D2, 0x3550C2321FD6109C, 0x371F77E76BB8417E, 0x6BFA9AAE5EC05779,
  0xCD04F3FF001A4778, 0xE3273522064480CA, 0x9F91508BFFCFC14A, 0x049A7F41061A9E60,
  0xFCB6BE43A9F2FE9B, 0x08DE8A1C7797DA9B, 0x8F9887E6078735A1, 0xB5B4071DBFC73A66,
  0x230E343DFBA08D33, 0x43ED7F5A0FAE657D, 0x3A88A0FBBCB05C63, 0x21874B8B4D2DBC4F,
  0x1BDEA12E35F6A8C9, 0x53C065C6C8E63528, 0xE34A1D250E7A8D6B, 0xD6B04D3B7651DD7E,
  0x5E90277E7CB39E2D, 0x2C046F22062DC67D, 0xB10BB459132D0A26, 0x3FA9DDFB67E2F199,
  0x0E09B88E1914F7AF, 0x10E8B35AF3EEAB37, 0x9EEDECA8E272B933, 0xD4C718BC4AE8AE5F,
  0x81536D601170FC20, 0x91B534F885818A06, 0xEC8177F83F900978, 0x190E714FADA5156E,
  0xB592BF39B0364963, 0x89C350C893AE7DC1, 0xAC042E70F8B383F2, 0xB49B52E587A1EE60,
  0xFB152FE3FF26DA89, 0x3E666E6F69AE2C15, 0x3B544EBE544C19F9, 0xE805A1E290CF2456,
  0x24B33C9D7ED25117, 0xE74733427B72F0C1, 0x0A804D18B7097475, 0x57E3306D881EDB4F,
  0x4AE7D6A36EB5DBCB, 0x2D8D5432157064C8, 0xD1E649DE1E7F268B, 0x8A328A1CEDFE552C,
  0x07A3AEC79624C7DA, 0x84547DDC3E203C94, 0x990A98FD5071D263, 0x1A4FF12616EEFC89,
  0xF6F7FD1431714200, 0x30C05B1BA332F41C, 0x8D2636B81555A786, 0x46C9FEB55D120902,
  0xCCEC0A73B49C9921, 0x4E9D2827355FC492, 0x19EBB029435DCB0F, 0x4659D2B743848A2C,
  0x963EF2C96B33BE31, 0x74F85198B05A2E7D, 0x5A0F544DD2B1FB18, 0x03727073C2E134B1,
  0xC7F6AA2DE59AEA61, 0x352787BAA0D7C22F, 0x9853EAB63B5E0B35, 0xABBDCDD7ED5C0860,
  0xCF05DAF5AC8D77B0, 0x49CAD48CEBF4A71E, 0x7A4C10EC2158C4A6, 0xD9E92AA246BF719E,
  0x13AE978D09FE5557, 0x730499AF921549FF, 0x4E4B705B92903BA4, 0xFF577222C14F0A3A,
  0x55B6344CF97AAFAE, 0xB862225B055B6960, 0xCAC09AFBDDD2CDB4, 0xDAF8E9829FE96B5F,
  0xB5FDFC5D3132C498, 0x310CB380DB6F7503, 0xE87FBB46217A360E, 0x2102AE466EBB1148,
  0xF8549E1A3AA5E00D, 0x07A69AFDCC42261A, 0xC4C118BFE78FEAAE, 0xF9F4892ED96BD438,
  0x1AF3DBE25D8F45DA, 0xF5B4B0B0D2DEEEB4, 0x962ACEEFA82E1C84, 0x046E3ECAAF453CE9,
  0xF05D129681949A4C, 0x964781CE734B3C84, 0x9C2ED44081CE5FBD, 0x522E23F3925E319E,
  0x177E00F9FC32F791, 0x2BC60A63A6F3B3F2, 0x222BBFAE61725606, 0x486289DDCC3D6780,
  0x7DC7785B8EFDFC80, 0x8AF38731C02BA980, 0x1FAB64EA29A2DDF7, 0xE4D9429322CD065A,
  0x9DA058C67844F20C, 0x24C0E332B70019B0, 0x233003B5A6CFE6AD, 0xD586BD01C5C217F6,
  0x5E5637885F29BC2B, 0x7EBA726D8C94094B, 0x0A56A5F0BFE39272, 0xD79476A84EE20D06,
  0x9E4C1269BAA4BF37, 0x17EFEE45B0DEE640, 0x1D95B0A5FCF90BC6, 0x93CBE0B699C2585D,
  0x65FA4F227A2B6D79, 0xD5F9E858292504D5, 0xC2B5A03F71471A6F, 0x59300222B4561E00,
  0xCE2F8642CA0712DC, 0x7CA9723FBB2E8988, 0x2785338347F2BA08, 0xC61BB3A141E50E8C,
  0x150F361DAB9DEC26, 0x9F6A419D382595F4, 0x64A53DC924FE7AC9, 0x142DE49FFF7A7C3D,
  0x0C335248857FA9E7, 0x0A9C32D5EAE45305, 0xE6C42178C4BBB92E, 0x71F1CE2490D20B07,
  0xF1BCC3D275AFE51A, 0xE728E8C83C334074, 0x96FBF83A12884624, 0x81A1549FD6573DA5,
  0x5FA7867CAF35E149, 0x56986E2EF3ED091B, 0x917F1DD5F8886C61, 0xD20D8C88C8FFE65F,
  0x31D71DCE64B2C310, 0xF165B587DF898190, 0xA57E6339DD2CF3A0, 0x1EF6E6DBB1961EC9,
  0x70CC73D90BC26E24, 0xE21A6B35DF0C3AD7, 0x003A93D8B2806962, 0x1C99DED33CB890A1,
  0xCF3145DE0ADD4289, 0xD0E4427A5514FB72, 0x77C621CC9FB3A483, 0x67A34DAC4356550B,
  0xF8D626AAAF278509]

/-- Index of a piece symbol in the Polyglot ordering `pPnNbBrRqQkK`
(the scan loop in `Position::__hash__`). -/
def pieceIdx (pc : Char) : Nat :=
  ['p', 'P', 'n', 'N', 'b', 'B', 'r', 'R', 'q', 'Q', 'k', 'K'].indexOf pc

/-- Zobrist/Polyglot hash of a position (position.cc `Position::__hash__`):
XOR of the table entries for each occupied square, the castling flags at
offsets 768..771, the real en-passant file at 772+file, and entry 780 when
white is to move.  All values stay below 2^64, so plain `Nat` XOR is the
64-bit XOR. -/
def Position.hash (P : Position) : Nat :=
  let h := (List.range 128).foldl
    (fun h i =>
      match P.board.getD i none with
      | some pc =>
        let sq := fromX88 i
        h ^^^ polyglotRandomArray.getD (64 * pieceIdx pc + 8 * sqRank sq + sqFile sq) 0
      | none => h)
    0
  let h := if P.white_castle_kingside then h ^^^ polyglotRandomArray.getD 768 0 else h
  let h := if P.white_castle_queenside then h ^^^ polyglotRandomArray.getD 769 0 else h
  let h := if P.black_castle_kingside then h ^^^ polyglotRandomArray.getD 770 0 else h
  let h := if P.black_castle_queenside then h ^^^ polyglotRandomArray.getD 771 0 else h
  let h :=
    match getRealEpSquare P with
    | some eps => h ^^^ polyglotRandomArray.getD (772 + sqFile eps) 0
    | none => h
  if P.turn == 'w' then h ^^^ polyglotRandomArray.getD 780 0 else h


/-! ### Attacker enumeration (src/attacker_generator.cc) -/

/-- The classical 0x88 difference table of piece-type bitmasks
(`attacks` in `AttackerGenerator::__contains__`), indexed by
`source_x88 - target_x88 + 119`. -/
def attacksTable : List Nat := [
  20, 0, 0, 0, 0, 0, 0, 24, 0, 0, 0, 0, 0, 0, 20, 0,
  0, 20, 0, 0, 0, 0, 0, 24, 0, 0, 0, 0, 0, 20, 0, 0,
  0, 0, 20, 0, 0, 0, 0, 24, 0, 0, 0, 0, 20, 0, 0, 0,
  0, 0, 0, 20, 0, 0, 0, 24, 0, 0, 0, 20, 0, 0, 0, 0,
  0, 0, 0, 0, 20, 0, 0, 24, 0, 0, 20, 0, 0, 0, 0, 0,
  0, 0, 0, 0, 0, 20, 2, 24, 2, 20, 0, 0, 0, 0, 0, 0,
  0, 0, 0, 0, 0, 2, 53, 56, 53, 2, 0, 0, 0, 0, 0, 0,
  24, 24, 24, 24, 24, 24, 56, 0, 56, 24, 24, 24, 24, 24, 24, 0,
  0, 0, 0, 0, 0, 2, 53, 56, 53, 2, 0, 0, 0, 0, 0, 0,
  0, 0, 0, 0, 0, 20, 2, 24, 2, 20, 0, 0, 0, 0, 0, 0,
  0, 0, 0, 0, 20, 0, 0, 24, 0, 0, 20, 0, 0, 0, 0, 0,
  0, 0, 0, 20, 0, 0, 0, 24, 0, 0, 0, 20, 0, 0, 0, 0,
  0, 0, 20, 0, 0, 0, 0, 24, 0, 0, 0, 0, 20, 0, 0, 0,
  0, 20, 0, 0, 0, 0, 0, 24, 0, 0, 0, 0, 0, 20, 0, 0,
  20, 0, 0, 0, 0, 0, 0, 24, 0, 0, 0, 0, 0, 0, 20]

/-- The matching table of single-step ray offsets (`rays`). -/
def raysTable : List Int := [
  17, 0, 0, 0, 0, 0, 0, 16, 0, 0, 0, 0, 0, 0, 15, 0,
  0, 17, 0, 0, 0, 0, 0, 16, 0, 0, 0, 0, 0, 15, 0, 0,
  0, 0, 17, 0, 0, 0, 0, 16, 0, 0, 0, 0, 15, 0, 0, 0,
  0, 0, 0, 17, 0, 0, 0, 16, 0, 0, 0, 15, 0, 0, 0, 0,
  0, 0, 0, 0, 17, 0, 0, 16, 0, 0, 15, 0, 0, 0, 0, 0,
  0, 0, 0, 0, 0, 17, 0, 16, 0, 15, 0, 0, 0, 0, 0, 0,
  0, 0, 0, 0, 0, 0, 17, 16, 15, 0, 0, 0, 0, 0, 0, 0,
  1, 1, 1, 1, 1, 1, 1, 0, -1, -1, -1, -1, -1, -1, -1, 0,
  0, 0, 0, 0, 0, 0, -15, -16, -17, 0, 0, 0, 0, 0, 0, 0,
  0, 0, 0, 0, 0, -15, 0, -16, 0, -17, 0, 0, 0, 0, 0, 0,
  0, 0, 0, 0, -15, 0, 0, -16, 0, 0, -17, 0, 0, 0, 0, 0,
  0, 0, 0, -15, 0, 0, 0, -16, 0, 0, 0, -17, 0, 0, 0, 0,
  0, 0, -15, 0, 0, 0, 0, -16, 0, 0, 0, 0, -17, 0, 0, 0,
  0, -15, 0, 0, 0, 0, 0, -16, 0, 0, 0, 0, 0, -17, 0, 0,
  -15, 0, 0, 0, 0, 0, 0, -16, 0, 0, 0, 0, 0, 0, -17]

/-- Bit position of a piece type in the attack bitmask (the `shift`
switch).  For an invalid type C++ would read an uninitialised local; the
branch is unreachable because piece types come from valid symbols. -/
def attackerShift (t : Char) : Nat :=
  if t == 'p' then 0 else if t == 'n' then 1 else if t == 'b' then 2
  else if t == 'r' then 3 else if t == 'q' then 4 else if t == 'k' then 5
  else 0

/-- Blocked test for the slider walk from `j` toward the target 0x88 index
`tx` in steps of `offset`.  The C++ loop keeps walking after finding a
blocker but only records the flag, so a short-circuit computes the same
answer; it reaches the target in at most seven steps, so fuel 8 suffices
for every reachable call. -/
def rayBlocked (P : Position) (tx : Int) (offset : Int) : Nat → Int → Bool
  | 0, _ => false
  | fuel + 1, j =>
    if j == tx then false
    else if (P.boardAt j).isSome then true
    else rayBlocked P tx offset fuel (j + offset)

/-- Membership test of the attacker enumerator
(`AttackerGenerator::__contains__`): does the given `color` attack `target`
from `source`? -/
def attackerContains (P : Position) (color : Char) (target source : Nat) : Bool :=
  match P.get source with
  | none => false
  | some pc =>
    if pieceColor pc != color then false
    else
      let difference : Int := (x88Index source : Int) - (x88Index target : Int)
      let index := (difference + 119).toNat
      if attacksTable.getD index 0 &&& (1 <<< attackerShift (pieceType pc)) != 0 then
        if pieceType pc == 'p' then
          if difference > 0 then pieceColor pc == 'w' else pieceColor pc == 'b'
        else if pieceType pc == 'n' || pieceType pc == 'k' then true
        else
          let offset := raysTable.getD index 0
          !(rayBlocked P ((x88Index target : Int)) offset 8 ((x88Index source : Int) + offset))
      else false

/-- Non-emptiness of the attacker enumerator
(`AttackerGenerator::__nonzero__`): scan the 64 squares. -/
def attackersAny (P : Position) (color : Char) (target : Nat) : Bool :=
  (List.range 64).any (fun s => attackerContains P color target s)

/-- Opposite color (libchess.cpp `opposite_color`); the invalid-argument
branch is unreachable at the engine call sites. -/
def oppositeColor (c : Char) : Char :=
  if c == 'w' then 'b' else if c == 'b' then 'w' else c

/-- King lookup (position.cc `Position::get_king`): first board slot, in
0x88 order, holding the king symbol of the color. -/
def getKing (P : Position) (color : Char) : Option Nat :=
  ((List.range 128).find?
    (fun i => P.board.getD i none == some (fromColorAndType color 'k'))).map fromX88

/-- Check whether the king of `color` is attacked (position.cc
`Position::is_king_attacked`).  An invalid color makes
`Piece::from_color_and_type` throw `invalid_argument("color")`; a missing
king makes the `AttackerGenerator` constructor reject the null target
square with `invalid_argument("target")`. -/
def isKingAttacked (P : Position) (color : Char) : Except String Bool :=
  if color != 'w' && color != 'b' then .error "color"
  else
    match getKing P color with
    | none => .error "target"
    | some k => .ok (attackersAny P (oppositeColor color) k)

/-! ### Pseudo-legal move generation (pseudo_legal_move_generator.cpp) -/

/-- The four promotion variants, in the emission order b, n, r, q. -/
def promoVariants (s t : Nat) : List Move :=
  [⟨s, t, 'b'⟩, ⟨s, t, 'n'⟩, ⟨s, t, 'r'⟩, ⟨s, t, 'q'⟩]

/-- Pawn pushes from `sq` (the single/double-step block of
`generate_from_square`).  `Square::from_x88_index` throws on the
off-board target of a pawn standing on the far backrank. -/
def pawnPushes (P : Position) (sq : Nat) : Except String (List Move) := do
  let t ← fromX88E ((x88Index sq : Int) + (if P.turn == 'b' then 16 else -16))
  if (P.get t).isNone then
    if sqIsBackrank t then
      return promoVariants sq t
    else if (P.turn == 'w' && sqRank sq == 1) || (P.turn == 'b' && sqRank sq == 6) then do
      let t2 ← fromX88E ((x88Index sq : Int) + (if P.turn == 'b' then 32 else -32))
      if (P.get t2).isNone then return [mkMove sq t, mkMove sq t2]
      else return [mkMove sq t]
    else
      return [mkMove sq t]
  else
    return []

/-- Pawn capture candidates at diagonal offset `off` (17 or 15; the sign is
flipped for white).  An empty or own-occupied diagonal is still compared
against the en-passant square, exactly as the C++ `else if`. -/
def pawnCapture (P : Position) (sq : Nat) (off : Int) : List Move :=
  let o := if P.turn == 'b' then off else -off
  let ti := (x88Index sq : Int) + o
  if !onBoardX88 ti then []
  else
    let t := fromX88 ti.toNat
    match P.get t with
    | some tp =>
      if pieceColor tp != P.turn then
        if sqIsBackrank t then promoVariants sq t else [mkMove sq t]
      else if getEpSquare P == some t then [mkMove sq t]
      else []
    | none => if getEpSquare P == some t then [mkMove sq t] else []

/-- Offset table of the non-pawn pieces (`offsets` in
`generate_from_square`). -/
def pieceOffsets (t : Char) : List Int :=
  if t == 'n' then [-18, -33, -31, -14, 18, 33, 31, 14]
  else if t == 'b' then [-17, -15, 17, 15]
  else if t == 'r' then [-16, 1, 16, -1]
  else if t == 'q' then [-17, -16, -15, 1, 17, 16, 15, -1]
  else if t == 'k' then [-17, -16, -15, 1, 17, 16, 15, -1]
  else []

/-- Walk of one generator direction (the inner `while (true)` loop):
step until off-board, emit captures of opposing pieces and stop at any
occupied square; knights and kings stop after a single step.  A ray leaves
the board after at most eight steps, so fuel 8 covers every call. -/
def slideGo (P : Position) (sq : Nat) (off : Int) (single : Bool) : Nat → Int → List Move
  | 0, _ => []
  | fuel + 1, ti =>
    let ti := ti + off
    if !onBoardX88 ti then []
    else
      let t := fromX88 ti.toNat
      match P.get t with
      | some tp => if pieceColor tp != P.turn then [mkMove sq t] else []
      | none =>
        mkMove sq t :: (if single then [] else slideGo P sq off single fuel ti)

/-- Castling-right getters (position.cc `has_kingside_castling_right` /
`has_queenside_castling_right`); invalid colors are unreachable here. -/
def hasKingsideRight (P : Position) (color : Char) : Bool :=
  if color == 'w' then P.white_castle_kingside else P.black_castle_kingside

/-- Queenside counterpart of `hasKingsideRight`. -/
def hasQueensideRight (P : Position) (color : Char) : Bool :=
  if color == 'w' then P.white_castle_queenside else P.black_castle_queenside

/-- Castling emissions (the trailing king block of `generate_from_square`):
kingside needs the f- and g-squares empty and the f-square unattacked;
queenside needs b, c, d empty and the d-square unattacked. -/
def castleMoves (P : Position) : List Move :=
  let backrank := if P.turn == 'b' then 7 else 0
  let ks :=
    if hasKingsideRight P P.turn then
      let bishop_square := backrank * 8 + 5
      let knight_square := backrank * 8 + 6
      if (P.get bishop_square).isNone && (P.get knight_square).isNone &&
         !attackersAny P (oppositeColor P.turn) bishop_square then
        [mkMove (backrank * 8 + 4) knight_square]
      else []
    else []
  let qs :=
    if hasQueensideRight P P.turn then
      let knight_square := backrank * 8 + 1
      let bishop_square := backrank * 8 + 2
      let queen_square := backrank * 8 + 3
      if (P.get knight_square).isNone && (P.get bishop_square).isNone &&
         (P.get queen_square).isNone &&
         !attackersAny P (oppositeColor P.turn) queen_square then
        [mkMove (backrank * 8 + 4) bishop_square]
      else []
    else []
  ks ++ qs

/-- Pseudo-legal moves from one square
(`PseudoLegalMoveGenerator::generate_from_square`), in queue order. -/
def generateFromSquare (P : Position) (sq : Nat) : Except String (List Move) := do
  match P.get sq with
  | none => return []
  | some piece =>
    if pieceColor piece != P.turn then return []
    else do
      let base ←
        if pieceType piece == 'p' then do
          let pushes ← pawnPushes P sq
          pure (pushes ++ pawnCapture P sq 17 ++ pawnCapture P sq 15)
        else
          let single := pieceType piece == 'k' || pieceType piece == 'n'
          pure ((pieceOffsets (pieceType piece)).foldl
            (fun acc o => acc ++ slideGo P sq o single 8 (x88Index sq)) [])
      return base ++ (if pieceType piece == 'k' then castleMoves P else [])

/-- Pseudo-legal membership (`PseudoLegalMoveGenerator::__contains__`):
generate only the source square's moves and scan. -/
def pseudoContains (P : Position) (m : Move) : Except String Bool :=
  (generateFromSquare P m.source).map (fun ms => ms.any (fun c => c == m))

/-- Full pseudo-legal move list, squares 0..63 in order (the enumeration
order of `has_more`/`next`). -/
def pseudoList (P : Position) : Except String (List Move) :=
  (List.range 64).foldlM (fun acc s => do return acc ++ (← generateFromSquare P s)) []

/-! ### Legality filter and move application (legal_move_generator.cc,
position.cc) -/

/-- Kingside precondition of a castling right (position.cc
`Position::could_have_kingside_castling_right`): king and h-rook on their
home squares.  The invalid-color branch is unreachable at the call sites. -/
def couldHaveKingside (Q : Position) (color : Char) : Bool :=
  let rank := if color == 'w' then 0 else 7
  Q.get (rank * 8 + 4) == some (fromColorAndType color 'k') &&
  Q.get (rank * 8 + 7) == some (fromColorAndType color 'r')

/-- Queenside counterpart (a-rook) of `couldHaveKingside`. -/
def couldHaveQueenside (Q : Position) (color : Char) : Bool :=
  let rank := if color == 'w' then 0 else 7
  Q.get (rank * 8 + 4) == some (fromColorAndType color 'k') &&
  Q.get (rank * 8 + 0) == some (fromColorAndType color 'r')

/-- Opening steps of `make_unvalidated_move_fast` (position.cc): record
mover and captured piece, move the mover, flip the turn, clear the
en-passant file. -/
def applyBaseStep (P : Position) (m : Move) (piece : Char) : MoveInfo × Position :=
  ({ move := m, piece := piece, captured := P.get m.target, san := [],
     is_enpassant := false, is_kingside_castle := false,
     is_queenside_castle := false, is_check := false, is_checkmate := false },
   { toggleTurn ((P.setSq m.target (P.get m.source)).setSq m.source none) with
       ep_file := charZero })

/-- Pawn block of `make_unvalidated_move_fast`: en-passant capture removal
(the captured-pawn square computed from the already toggled turn) and the
double-step en-passant file. -/
def applyPawnStep (piece : Char) (m : Move) (st : MoveInfo × Position) :
    MoveInfo × Position :=
  if pieceType piece == 'p' then
    let st1 :=
      if sqFile m.target != sqFile m.source && st.1.captured.isNone then
        let capX := x88Index (if st.2.turn == 'b' then 4 * 8 + sqFile m.target
                              else 3 * 8 + sqFile m.target)
        ({ st.1 with captured := st.2.board.getD capX none, is_enpassant := true },
         { st.2 with board := st.2.board.set capX none })
      else st
    if ((sqRank m.target : Int) - (sqRank m.source : Int)).natAbs == 2 then
      (st1.1, { st1.2 with ep_file := Char.ofNat (sqFile m.target + 'a'.toNat) })
    else st1
  else st

/-- Promotion block of `make_unvalidated_move_fast`. -/
def applyPromoStep (piece : Char) (m : Move) (st : MoveInfo × Position) :
    MoveInfo × Position :=
  if m.promotion.toNat != 0 then
    (st.1, st.2.setSq m.target (some (fromColorAndType (pieceColor piece) m.promotion)))
  else st

/-- Castling block of `make_unvalidated_move_fast`: move the rook and set
the castle flag. -/
def applyCastleStep (piece : Char) (m : Move) (st : MoveInfo × Position) :
    MoveInfo × Position :=
  if pieceType piece == 'k' then
    let steps : Int := (sqFile m.target : Int) - (sqFile m.source : Int)
    let backrank := if st.2.turn == 'b' then 0 else 7
    if steps == 2 then
      ({ st.1 with is_kingside_castle := true },
       (st.2.setSq (backrank * 8 + 5) (st.2.get (backrank * 8 + 7))).setSq
         (backrank * 8 + 7) none)
    else if steps == -2 then
      ({ st.1 with is_queenside_castle := true },
       (st.2.setSq (backrank * 8 + 3) (st.2.get (backrank * 8 + 0))).setSq
         (backrank * 8 + 0) none)
    else st
  else st

/-- Halfmove-clock block of `make_unvalidated_move_fast`. -/
def applyHalfStep (piece : Char) (st : MoveInfo × Position) : MoveInfo × Position :=
  if pieceType piece == 'p' || st.1.captured.isSome then
    (st.1, { st.2 with half_moves := 0 })
  else
    (st.1, { st.2 with half_moves := st.2.half_moves + 1 })

/-- Fullmove block of `make_unvalidated_move_fast`: the counter increments
when the new side to move is white. -/
def applyPlyStep (st : MoveInfo × Position) : MoveInfo × Position :=
  if st.2.turn == 'w' then (st.1, { st.2 with ply := st.2.ply + 1 }) else st

/-- Castling-rights block of `make_unvalidated_move_fast`: clears broken
rights of the side that just moved. -/
def applyRightsStep (st : MoveInfo × Position) : MoveInfo × Position :=
  if st.2.turn == 'w' then
    (st.1,
     { st.2 with
       black_castle_kingside := st.2.black_castle_kingside && couldHaveKingside st.2 'b',
       black_castle_queenside := st.2.black_castle_queenside && couldHaveQueenside st.2 'b' })
  else
    (st.1,
     { st.2 with
       white_castle_kingside := st.2.white_castle_kingside && couldHaveKingside st.2 'w',
       white_castle_queenside := st.2.white_castle_queenside && couldHaveQueenside st.2 'w' })

/-- Fast unvalidated move application (position.cc
`Position::make_unvalidated_move_fast`), assembled from the step blocks in
the C++ statement order: capture recording and piece movement, turn flip
and en-passant clearing, the pawn block, promotion, castling, the halfmove
clock, the fullmove counter, and the castling-rights maintenance.  An empty
source square throws `invalid_argument("move")`. -/
def makeUnvalidatedMoveFast (P : Position) (m : Move) :
    Except String (MoveInfo × Position) :=
  match P.get m.source with
  | none => .error "move"
  | some piece =>
    .ok (applyRightsStep (applyPlyStep (applyHalfStep piece
      (applyCastleStep piece m (applyPromoStep piece m
        (applyPawnStep piece m (applyBaseStep P m piece)))))))

/-- Speculative legality test (legal_move_generator.cc
`would_be_valid_if_pseudo_legal`): apply the move on a clone and require
the mover's king unattacked. -/
def wouldBeValid (P : Position) (m : Move) : Except String Bool := do
  let r ← makeUnvalidatedMoveFast P m
  let atk ← isKingAttacked r.2 P.turn
  return !atk

/-- Legal-move membership (legal_move_generator.cc `__contains__`):
pseudo-legality first, then the legality predicate. -/
def legalContains (P : Position) (m : Move) : Except String Bool := do
  let pc ← pseudoContains P m
  if !pc then return false else wouldBeValid P m

/-- Full legal move list (the `__iter__`/`has_more`/`next` enumeration of
`LegalMoveGenerator`). -/
def legalList (P : Position) : Except String (List Move) := do
  let ms ← pseudoList P
  ms.filterM (fun m => wouldBeValid P m)

/-- Square-by-square search for a first legal move, squares
`64 - fuel` upward (`LegalMoveGenerator::__nonzero__`, which generates
pseudo moves lazily and stops at the first valid one). -/
def legalAnyGo (P : Position) : Nat → Except String Bool
  | 0 => .ok false
  | fuel + 1 => do
    let ms ← generateFromSquare P (64 - (fuel + 1))
    let found ← ms.anyM (fun m => wouldBeValid P m)
    if found then return true else legalAnyGo P fuel

/-- Non-emptiness of the legal move set. -/
def legalAny (P : Position) : Except String Bool := legalAnyGo P 64

/-- Check predicate (position.cc `Position::is_check`). -/
def isCheck (P : Position) : Except String Bool := isKingAttacked P P.turn

/-- Checkmate predicate (position.cc `Position::is_checkmate`). -/
def isCheckmate (P : Position) : Except String Bool := do
  let c ← isCheck P
  if !c then return false else return !(← legalAny P)

/-- The disambiguation flags of the SAN renderer (the scan loop in
`Position::make_move`): `(is_ambigous, same_rank, same_file)` over the
legal moves `lm` of the pre-move position, with piece lookups on the
already mutated board `Ppost` — exactly as the C++ does.  The C++ early
`break` once both flags hold cannot change the final flags. -/
def disambigFlags (Ppost : Position) (piece : Char) (m : Move) (lm : List Move) :
    Bool × Bool × Bool :=
  lm.foldl
    (fun fl m2 =>
      if Ppost.get m2.source == some piece && m.source != m2.source &&
         m.target == m2.target then
        (true, fl.2.1 || sqRank m.source == sqRank m2.source,
         fl.2.2 || sqFile m.source == sqFile m2.source)
      else fl)
    (false, false, false)

/-- Validated move application with SAN construction (position.cc
`Position::make_move`): legality gate, fast application, check and
checkmate flags, then the SAN text (castles as `O-O`/`O-O-O`; otherwise
piece letter, disambiguator, capture cross, target name), followed by the
check suffix and the en-passant remark.  The SAN renderer never emits a
promotion piece. -/
def makeMove (P : Position) (m : Move) : Except String (MoveInfo × Position) := do
  let legal ← legalContains P m
  if !legal then Except.error "move"
  else do
    let r ← makeUnvalidatedMoveFast P m
    let info0 := r.1
    let P2 := r.2
    let chk ← isCheck P2
    let mate ← isCheckmate P2
    let info := { info0 with is_check := chk, is_checkmate := mate }
    let san ←
      if info.is_kingside_castle then Except.ok ("O-O").toList
      else if info.is_queenside_castle then Except.ok ("O-O-O").toList
      else do
        let s0 : List Char :=
          if pieceType info.piece != 'p' then [(pieceType info.piece).toUpper] else []
        let lm ← legalList P
        let fl := disambigFlags P2 info.piece m lm
        let s1 := s0 ++
          (if fl.2.1 && fl.2.2 then sqName m.source
           else if fl.2.2 then [Char.ofNat ('1'.toNat + sqRank m.source)]
           else if fl.2.1 || fl.1 then [Char.ofNat ('a'.toNat + sqFile m.source)]
           else [])
        let s2 := s1 ++
          (if info.captured.isSome then
            (if pieceType info.piece == 'p' then [Char.ofNat ('a'.toNat + sqFile m.source)]
             else []) ++ ['x']
           else [])
        Except.ok (s2 ++ sqName m.target)
    let san := san ++ (if info.is_checkmate then ['#'] else if info.is_check then ['+'] else [])
    let san := san ++ (if info.is_enpassant then (" (e.p.)").toList else [])
    return ({ info with san := san }, P2)

/-! ### Game-state predicate and public setters (position.cc) -/

/-- One loop index of `is_insufficient_material` (position.cc).  The
counting switch lacks a `break` after the lowercase `'b'` arm, so a black
bishop executes `white_bishops++; black_bishops--;` and then falls through
into the `'B'` arm (`black_bishops++` and the square-color count); the
counters are therefore swapped but their sum is the bishop total.  The
loop returns false immediately on any queen, pawn or rook, modelled by the
absorbing `none` state. -/
def insufficientStep (P : Position) (st : Option (Int × Int × Int × Int × Int))
    (i : Nat) : Option (Int × Int × Int × Int × Int) :=
  match st with
  | none => none
  | some (piece_count, white_bishops, black_bishops, light, dark) =>
    match P.board.getD i none with
    | none => st
    | some pc =>
      let piece_count := piece_count + 1
      if pc == 'b' || pc == 'B' then
        let white_bishops := if pc == 'b' then white_bishops + 1 else white_bishops
        let black_bishops :=
          if pc == 'b' then black_bishops - 1 + 1 else black_bishops + 1
        if sqIsDark (fromX88 i) then
          some (piece_count, white_bishops, black_bishops, light, dark + 1)
        else
          some (piece_count, white_bishops, black_bishops, light + 1, dark)
      else if pc == 'q' || pc == 'Q' || pc == 'p' || pc == 'P' ||
              pc == 'r' || pc == 'R' then none
      else some (piece_count, white_bishops, black_bishops, light, dark)

/-- Insufficient-material test (position.cc
`Position::is_insufficient_material`): the counting loop over the 128
board slots followed by the three material checks. -/
def isInsufficientMaterial (P : Position) : Bool :=
  match (List.range 128).foldl (insufficientStep P) (some (0, 0, 0, 0, 0)) with
  | none => false
  | some (piece_count, white_bishops, black_bishops, light, dark) =>
    if piece_count == 2 then true
    else if piece_count == 3 then true
    else if piece_count == 2 + white_bishops + black_bishops then
      (light != 0 && dark == 0) || (dark != 0 && light == 0)
    else false

/-- A board cell holding one of the early-exit symbols of
`is_insufficient_material` (queen, pawn or rook of either color). -/
def heavyCell (c : Option Char) : Bool :=
  c == some 'q' || c == some 'Q' || c == some 'p' || c == some 'P' ||
  c == some 'r' || c == some 'R'

/-- Turn setter (position.cc `Position::set_turn`). -/
def setTurn (P : Position) (c : Char) : Except String Position :=
  if c == 'w' || c == 'b' then .ok { P with turn := c } else .error "turn"

/-- Halfmove-clock setter (position.cc `Position::set_half_moves`),
rejecting negative values. -/
def setHalfMoves (P : Position) (n : Int) : Except String Position :=
  if n < 0 then .error "half_moves" else .ok { P with half_moves := n.toNat }

/-- Fullmove-number setter (position.cc `Position::set_ply`), rejecting
values below 1. -/
def setPly (P : Position) (n : Int) : Except String Position :=
  if n < 1 then .error "ply" else .ok { P with ply := n.toNat }

/-- Kingside castling-right setter (position.cc
`Position::set_kingside_castling_right`). -/
def setKingsideRight (P : Position) (color : Char) (b : Bool) : Except String Position :=
  if color == 'w' then .ok { P with white_castle_kingside := b }
  else if color == 'b' then .ok { P with black_castle_kingside := b }
  else .error "color"

/-- Queenside castling-right setter (position.cc
`Position::set_queenside_castling_right`). -/
def setQueensideRight (P : Position) (color : Char) (b : Bool) : Except String Position :=
  if color == 'w' then .ok { P with white_castle_queenside := b }
  else if color == 'b' then .ok { P with black_castle_queenside := b }
  else .error "color"

/-- Positions reachable through the public Position API named by the
round-trip claim: `reset`, `set_fen`, `make_move` and the field setters. -/
inductive Reachable : Position → Prop
  | reset : Reachable resetPosition
  | fromFen (s : List Char) (P : Position) : setFen s = .ok P → Reachable P
  | move (P : Position) (m : Move) (r : MoveInfo × Position) :
      Reachable P → makeMove P m = .ok r → Reachable r.2
  | turnSet (P : Position) (c : Char) (Q : Position) :
      Reachable P → setTurn P c = .ok Q → Reachable Q
  | epFileSet (P : Position) (c : Char) (Q : Position) :
      Reachable P → setEpFile P c = .ok Q → Reachable Q
  | halfMovesSet (P : Position) (n : Int) (Q : Position) :
      Reachable P → setHalfMoves P n = .ok Q → Reachable Q
  | plySet (P : Position) (n : Int) (Q : Position) :
      Reachable P → setPly P n = .ok Q → Reachable Q
  | kingsideSet (P : Position) (c : Char) (b : Bool) (Q : Position) :
      Reachable P → setKingsideRight P c b = .ok Q → Reachable Q
  | queensideSet (P : Position) (c : Char) (b : Bool) (Q : Position) :
      Reachable P → setQueensideRight P c b = .ok Q → Reachable Q

/-! ### Representation invariant and claim statements -/

/-- The class invariant every API-constructible `Position` satisfies:
a 128-slot board whose sentinel slots are empty and whose occupied slots
hold one of the twelve piece symbols, a valid turn, an en-passant file that
is 0 or a file letter, and a fullmove number of at least 1. -/
def wf (P : Position) : Bool :=
  P.board.length == 128 &&
  (List.range 128).all (fun i =>
    match P.board.getD i none with
    | none => true
    | some c => i &&& 136 == 0 && isPieceSymbol c) &&
  (P.turn == 'w' || P.turn == 'b') &&
  (P.ep_file == charZero ||
    ('a'.toNat ≤ P.ep_file.toNat && P.ep_file.toNat ≤ 'h'.toNat)) &&
  1 ≤ P.ply

/-- Number of board slots holding the piece symbol `c`. -/
def countPiece (P : Position) (c : Char) : Nat :=
  ((List.range 128).filter (fun i => P.board.getD i none == some c)).length

/-- The board squares (0x88 indices) holding a bishop of either color. -/
def bishopSlots (P : Position) : List Nat :=
  (List.range 128).filter
    (fun i => P.board.getD i none == some 'b' || P.board.getD i none == some 'B')

/-- Number of knights of either color (spec wording). -/
def specKnights (P : Position) : Nat := countPiece P 'n' + countPiece P 'N'

/-- Number of bishops of either color (spec wording). -/
def specBishops (P : Position) : Nat := countPiece P 'b' + countPiece P 'B'

/-- Number of pawns, rooks and queens of either color (spec wording: the
material that always defeats the insufficiency test). -/
def specHeavy (P : Position) : Nat :=
  countPiece P 'p' + countPiece P 'P' + countPiece P 'r' +
    countPiece P 'R' + countPiece P 'q' + countPiece P 'Q'

/-- All bishops on the board stand on squares of one color (spec wording). -/
def specSameColor (P : Position) : Bool :=
  (bishopSlots P).all
    (fun i => sqIsDark (fromX88 i) == sqIsDark (fromX88 ((bishopSlots P).headD 0)))

/-- Spec-side insufficient-material predicate, written from the claim's
four material descriptions: king versus king, king and one knight versus
king, king and one bishop versus king, or each side having only its king
plus bishops with all bishops on squares of one color. -/
def specInsufficient (P : Position) : Bool :=
  specHeavy P == 0 &&
  ((specKnights P == 0 && specBishops P == 0) ||
   (specKnights P == 1 && specBishops P == 0) ||
   (specKnights P == 0 && specBishops P == 1) ||
   (specKnights P == 0 && 1 ≤ specBishops P && specSameColor P))

/-- Exactly one king of each color on the board. -/
def oneKingEach (P : Position) : Bool :=
  countPiece P 'K' == 1 && countPiece P 'k' == 1

/-- Decidable equality for the `Except` results of the embedded engine. -/
instance {e a : Type} [DecidableEq e] [DecidableEq a] : DecidableEq (Except e a) := fun x y =>
  match x, y with
  | .ok u, .ok v =>
    match decEq u v with
    | isTrue h => isTrue (h ▸ rfl)
    | isFalse h => isFalse (fun hc => h (Except.ok.inj hc))
  | .error u, .error v =>
    match decEq u v with
    | isTrue h => isTrue (h ▸ rfl)
    | isFalse h => isFalse (fun hc => h (Except.error.inj hc))
  | .ok _, .error _ => isFalse (fun hc => Except.noConfusion hc)
  | .error _, .ok _ => isFalse (fun hc => Except.noConfusion hc)

/-- Membership in the legal-move set, as computed by the engine's
`LegalMoveGenerator::__contains__`. -/
def inLegalSet (P : Position) (m : Move) : Prop := legalContains P m = .ok true

/-- Claim C1 as stated: `make_move` succeeds only for members of the
legal-move set, fails with `invalid_argument("move")` otherwise, and on
success leaves the mover's king unattacked. -/
def C1_claim : Prop :=
  ∀ P m, wf P = true →
    ((makeMove P m).isOk = true →
      inLegalSet P m ∧
      (makeMove P m).map (fun r => isKingAttacked r.2 P.turn) = .ok (.ok false)) ∧
    (¬ inLegalSet P m → makeMove P m = .error "move")

/-- Claim C2 as stated: every position reachable through the public API
parses back from its own FEN. -/
def C2_claim : Prop :=
  ∀ P, Reachable P → setFen P.fen = .ok P

/-- The square the C6 claim asserts the en-passant-captured pawn sits on:
rank 4 when black made the move, rank 3 when white made the move (the
engine actually clears the swapped square). -/
def c6ClaimCapSq (turn : Char) (m : Move) : Nat :=
  if turn = 'b' then 4 * 8 + sqFile m.target else 3 * 8 + sqFile m.target

/-- The square the engine actually clears in the en-passant branch of
`make_unvalidated_move_fast`: rank 4 when white made the move, rank 3 when
black made the move. -/
def c6CodeCapSq (turn : Char) (m : Move) : Nat :=
  if turn = 'w' then 4 * 8 + sqFile m.target else 3 * 8 + sqFile m.target

/-- Claim C6 as stated: a pseudo-legal pawn move to an empty square on a
different file is applied as an en-passant capture whose captured pawn sits
on rank 4 for a black mover and rank 3 for a white mover. -/
def C6_claim : Prop :=
  ∀ P m pc, wf P = true →
    pseudoContains P m = .ok true →
    P.get m.source = some pc → pieceType pc = 'p' →
    sqFile m.target ≠ sqFile m.source →
    P.get m.target = none →
    ∃ r, makeUnvalidatedMoveFast P m = .ok r ∧
      r.1.is_enpassant = true ∧
      (∃ cap, P.get (c6ClaimCapSq P.turn m) = some cap ∧ pieceType cap = 'p') ∧
      r.1.captured = P.get (c6ClaimCapSq P.turn m) ∧
      r.2.get (c6ClaimCapSq P.turn m) = none

/-- Claim C7 as stated: the insufficient-material predicate coincides with
the four spec material classes on every constructible position. -/
def C7_claim : Prop :=
  ∀ P, wf P = true → isInsufficientMaterial P = specInsufficient P

/-! ### Concrete fixtures used by counterexamples and witnesses -/

/-- En-passant test position (spec §8 scenario 2). -/
def epTestFen : List Char :=
  ("rnbqkbnr/ppp1pppp/8/3pP3/8/8/PPPP1PPP/RNBQKBNR w KQkq d6 0 3").toList

/-- The parsed en-passant test position. -/
def epTestPos : Position := ((setFen epTestFen).toOption).getD resetPosition

/-- The en-passant capture e5d6 (e5 = 36, d6 = 43). -/
def epMove : Move := mkMove 36 43

/-- A position whose side to move has pieces but no king. -/
def noKingFen : List Char := ("7k/8/8/8/8/8/8/N7 w - - 0 1").toList

/-- The parsed kingless position. -/
def noKingPos : Position := ((setFen noKingFen).toOption).getD resetPosition

/-- The knight move a1b3 (a1 = 0, b3 = 17), pseudo-legal in `noKingPos`. -/
def nightMove : Move := mkMove 0 17

/-- A promotion test position: white pawn a7, kings a1 and h7. -/
def promoFen : List Char := ("8/P6k/8/8/8/8/8/K7 w - - 0 1").toList

/-- The parsed promotion position. -/
def promoPos : Position := ((setFen promoFen).toOption).getD resetPosition

/-- The promotion a7a8q (a7 = 48, a8 = 56). -/
def promoMove : Move := ⟨48, 56, 'q'⟩

/-- A board with two black knights and no kings, constructible via
`set_fen`. -/
def twoKnightsFen : List Char := ("8/8/8/8/8/8/8/nn6 w - - 0 1").toList

/-- The parsed two-knight position. -/
def twoKnightsPos : Position := ((setFen twoKnightsFen).toOption).getD resetPosition

/-- King-versus-king position (spec §8 scenario 4). -/
def kvkFen : List Char := ("8/8/8/2k5/8/4K3/8/8 w - - 0 1").toList

/-- The parsed king-versus-king position. -/
def kvkPos : Position := ((setFen kvkFen).toOption).getD resetPosition

/-- A fallback MoveInfo-position pair, used only to phrase closed
statements about successful `make_move` results. -/
def dummyResult : MoveInfo × Position :=
  ({ move := mkMove 0 0, piece := 'P', captured := none, san := [],
     is_enpassant := false, is_kingside_castle := false,
     is_queenside_castle := false, is_check := false, is_checkmate := false },
   resetPosition)

/-- A `MoveInfo` with only the queenside-castle flag set. -/
def qsCastleInfo : MoveInfo :=
  { move := mkMove 4 2, piece := 'k', captured := none, san := [],
    is_enpassant := false, is_kingside_castle := false,
    is_queenside_castle := true, is_check := false, is_checkmate := false }

/-! ## Theorems -/

/-- C3: the Zobrist hash of the position obtained by parsing the standard
starting FEN equals 0x463b96181691fc9c; the hash XORs the table entry
`RANDOM[64*p + 8*rank + file]` for each occupied square in the piece order
`p P n N b B r R q Q k K`, the castling offsets 768..771, the real
en-passant file at 772+file and `RANDOM[780]` for white to move, as in the
definition of `Position.hash`. -/
theorem C3_polyglot_start_hash :
    (setFen startFen).map Position.hash = .ok 0x463b96181691fc9c := by decide

/-- C4, evaluation at the failing input: on the en-passant position
`rnbqkbnr/ppp1pppp/8/3pP3/8/8/PPPP1PPP/RNBQKBNR w KQkq d6 0 3` the derived
en-passant square d6 (index 43) exists and the white pawn on e5 (index 36)
stands diagonally adjacent ready to capture, yet `get_real_ep_square`
returns the null square, because the code reads the absolute board offsets
17 and 15 instead of squares next to the en-passant square; consequently
the hash ignores the en-passant file here. -/
theorem C4_real_ep_square_eval :
    epTestPos.turn = 'w' ∧
    getEpSquare epTestPos = some 43 ∧
    epTestPos.get 36 = some 'P' ∧
    getRealEpSquare epTestPos = none ∧
    Position.hash epTestPos = Position.hash { epTestPos with ep_file := charZero } := by
  refine ⟨by decide, by decide, by decide, by decide, by decide⟩

/-- C5, evaluation at the failing inputs: `set_ep_file` accepts the file
letters but, lacking a `break` before the `default:` arm, throws
`invalid_argument("ep_file")` for the legal clearing inputs `'-'` and 0 as
well as for genuinely invalid input. -/
theorem C5_set_ep_file_eval :
    setEpFile resetPosition '-' = .error "ep_file" ∧
    setEpFile resetPosition charZero = .error "ep_file" ∧
    setEpFile resetPosition 'e' = .ok { resetPosition with ep_file := 'e' } ∧
    setEpFile resetPosition 'x' = .error "ep_file" := by
  refine ⟨by decide, by decide, by decide, by decide⟩

/-- C9, evaluation at the failing input: for a 4-character UCI string the
`Move(std::string)` constructor leaves `m_promotion` uninitialised (modelled
by the `junk` parameter), so rendering the parsed move can yield `e2e4q`
instead of `e2e4`; with a zero junk byte, and for 5-character strings, the
round trip holds, and wrong lengths fail with `invalid_argument("uci")`. -/
theorem C9_uci_roundtrip_eval :
    (Move.fromUci 'q' ("e2e4".toList)).map Move.uci = .ok ("e2e4q".toList) ∧
    ("e2e4q".toList ≠ "e2e4".toList) ∧
    (Move.fromUci charZero ("e2e4".toList)).map Move.uci = .ok ("e2e4".toList) ∧
    (Move.fromUci 'q' ("e7e8q".toList)).map Move.uci = .ok ("e7e8q".toList) ∧
    Move.fromUci 'q' ("e2e".toList) = .error "uci" ∧
    Move.fromUci 'q' ("e2e4q5".toList) = .error "uci" := by
  refine ⟨by decide, by decide, by decide, by decide, by decide, by decide⟩

/-- C10, evaluation at the failing input: a `MoveInfo` whose queenside
flag is set and whose kingside flag is clear has `is_castle() = false`,
because the C++ body disjoins the kingside flag with itself. -/
theorem C10_is_castle_eval :
    qsCastleInfo.is_queenside_castle = true ∧
    qsCastleInfo.is_kingside_castle = false ∧
    qsCastleInfo.is_castle = false := by
  refine ⟨by decide, by decide, by decide⟩

/-- C7, counterexample: on the set_fen-constructible board with two black
knights and no kings, `is_insufficient_material` returns true although the
material is none of the four claimed classes (the code merely counts two
occupied squares). -/
theorem C7_counterexample : ¬ C7_claim := by
  intro h
  have h2 := h twoKnightsPos (by decide)
  have h3 : ¬ (isInsufficientMaterial twoKnightsPos = specInsufficient twoKnightsPos) := by
    decide
  exact h3 h2

/-- C1, counterexample: on the kingless position `7k/8/8/8/8/8/8/N7 w`,
the pseudo-legal knight move a1b3 is not in the legal-move set (the
membership test itself throws `invalid_argument("target")` for the missing
king), and `make_move` fails with "target", not with "move" as the claim
states. -/
theorem C1_counterexample : ¬ C1_claim := by
  intro h
  have h2 := (h noKingPos nightMove (by decide)).2
  have h3 : makeMove noKingPos nightMove = .error "move" := by
    refine h2 ?_
    intro hc
    have h4 : ¬ (legalContains noKingPos nightMove = .ok true) := by decide
    exact h4 hc
  have h5 : ¬ (makeMove noKingPos nightMove = .error "move") := by decide
  exact h5 h3

/-- C6, counterexample: applying the en-passant capture e5d6 on the
standard en-passant position, the claim's captured-pawn square for a white
mover is d4 (rank 3), which is empty; the engine in fact removes the pawn
from d5 (rank 4). -/
theorem C6_counterexample : ¬ C6_claim := by
  intro h
  obtain ⟨r, -, -, ⟨cap, hcap, -⟩, -, -⟩ :=
    h epTestPos epMove 'P' (by decide) (by decide) (by decide) (by decide)
      (by decide) (by decide)
  have hnone : epTestPos.get (c6ClaimCapSq epTestPos.turn epMove) = none := by decide
  rw [hnone] at hcap
  exact Option.noConfusion hcap

/-! ### Except-monad computation lemmas -/

/-- Bind on a success reduces to the continuation. -/
@[simp] theorem exc_bind_ok {α β : Type} (a : α) (f : α → Except String β) :
    (Except.ok a >>= f) = f a := rfl

/-- Bind on an error is the error. -/
@[simp] theorem exc_bind_error {α β : Type} (e : String) (f : α → Except String β) :
    ((Except.error e : Except String α) >>= f) = Except.error e := rfl

/-- Pure is `.ok`. -/
@[simp] theorem exc_pure {α : Type} (a : α) : (pure a : Except String α) = Except.ok a := rfl

/-- Map on a success. -/
@[simp] theorem exc_map_ok {α β : Type} (f : α → β) (a : α) :
    (Except.ok a : Except String α).map f = Except.ok (f a) := rfl

/-- Map on an error. -/
@[simp] theorem exc_map_error {α β : Type} (f : α → β) (e : String) :
    (Except.error e : Except String α).map f = (Except.error e : Except String β) := rfl

/-- A successful legality membership means pseudo-membership plus a
successful speculative validity check. -/
theorem legalContains_true (P : Position) (m : Move)
    (h : legalContains P m = .ok true) :
    pseudoContains P m = .ok true ∧ wouldBeValid P m = .ok true := by
  unfold legalContains at h
  cases hp : pseudoContains P m with
  | error e => rw [hp] at h; simp at h
  | ok b =>
    rw [hp] at h
    cases b with
    | false => simp at h
    | true => simp at h; exact ⟨rfl, h⟩

/-- A successful validity check is an application whose resulting position
leaves the mover's king unattacked. -/
theorem wouldBeValid_true (P : Position) (m : Move)
    (h : wouldBeValid P m = .ok true) :
    ∃ r, makeUnvalidatedMoveFast P m = .ok r ∧ isKingAttacked r.2 P.turn = .ok false := by
  unfold wouldBeValid at h
  cases ha : makeUnvalidatedMoveFast P m with
  | error e => rw [ha] at h; simp at h
  | ok r =>
    rw [ha] at h
    simp at h
    cases hk : isKingAttacked r.2 P.turn with
    | error e => rw [hk] at h; simp at h
    | ok b =>
      rw [hk] at h
      simp at h
      cases b with
      | true => simp at h
      | false => exact ⟨r, rfl, hk⟩

/-- A successful `makeMove` passed the legality gate, and its resulting
position is the one produced by the fast applier. -/
theorem makeMove_ok_parts (P : Position) (m : Move) (r' : MoveInfo × Position)
    (h : makeMove P m = .ok r') :
    legalContains P m = .ok true ∧
    ∃ i, makeUnvalidatedMoveFast P m = .ok (i, r'.2) := by
  unfold makeMove at h
  cases hl : legalContains P m with
  | error e => rw [hl] at h; simp at h
  | ok b =>
    rw [hl] at h
    cases b with
    | false => simp at h
    | true =>
      simp at h
      refine ⟨rfl, ?_⟩
      cases ha : makeUnvalidatedMoveFast P m with
      | error e => rw [ha] at h; simp at h
      | ok r =>
        rw [ha] at h
        simp at h
        cases hc : isCheck r.2 with
        | error e => rw [hc] at h; simp at h
        | ok chk =>
          rw [hc] at h
          simp at h
          cases hmt : isCheckmate r.2 with
          | error e => rw [hmt] at h; simp at h
          | ok mate =>
            rw [hmt] at h
            simp at h
            refine ⟨r.1, ?_⟩
            split at h
            · cases h; rfl
            · split at h
              · cases h; rfl
              · cases hll : legalList P with
                | error e => rw [hll] at h; simp at h
                | ok lm => rw [hll] at h; simp at h; cases h; rfl

/-- C1 (amended): `make_move(P, m)` succeeds only when the legal-move
membership test returns true, and on success the mover's king on the
resulting position is not attacked by the opposing side; whenever the
membership test returns false it fails with `invalid_argument("move")`
(a failure of the membership test itself — e.g. a missing king — propagates
as that test's error instead). -/
theorem C1_make_move (P : Position) (m : Move) :
    ((makeMove P m).isOk = true →
      legalContains P m = .ok true ∧
      (makeMove P m).map (fun r => isKingAttacked r.2 P.turn) = .ok (.ok false)) ∧
    (legalContains P m = .ok false → makeMove P m = .error "move") := by
  constructor
  · intro h
    cases hm : makeMove P m with
    | error e => rw [hm] at h; simp [Except.isOk, Except.toBool] at h
    | ok r' =>
      obtain ⟨hl, i, ha⟩ := makeMove_ok_parts P m r' hm
      refine ⟨hl, ?_⟩
      obtain ⟨hp, hw⟩ := legalContains_true P m hl
      obtain ⟨r2, ha2, hk⟩ := wouldBeValid_true P m hw
      rw [ha] at ha2
      cases ha2
      simp
      exact hk
  · intro h
    unfold makeMove
    rw [h]
    rfl

/-- C1 witness: on the promotion fixture, a7a8q is accepted and the white
king is unattacked afterwards, while the illegal a1d4 is rejected with
"move". -/
theorem C1_witness :
    (legalContains promoPos promoMove = .ok true ∧
      (makeMove promoPos promoMove).map
        (fun r => isKingAttacked r.2 promoPos.turn) = .ok (.ok false)) ∧
    makeMove promoPos (mkMove 0 27) = .error "move" :=
  ⟨(C1_make_move promoPos promoMove).1 (by decide),
   (C1_make_move promoPos (mkMove 0 27)).2 (by decide)⟩

theorem x88_fromX88 (x : Nat) (h : x < 128) (h2 : x % 16 < 8) :
    x88Index (fromX88 x) = x := by
  unfold x88Index fromX88 sqFile sqRank
  omega

theorem sqFile_fromX88 (x : Nat) : sqFile (fromX88 x) = x % 8 := by
  unfold sqFile fromX88; omega

theorem land136_mod (x : Nat) (h : x < 128) : x &&& 136 = 0 ↔ x % 16 < 8 := by
  have hf : ∀ y : Fin 128, ((y.val &&& 136 == 0) = decide (y.val % 16 < 8)) := by decide
  have hx := hf ⟨x, h⟩
  constructor
  · intro he; simp [he] at hx; omega
  · intro he
    have h4 : (x &&& 136 == 0) = true := by rw [hx]; exact decide_eq_true he
    exact beq_iff_eq.mp h4

theorem onBoard_elim (x : Int) (h : onBoardX88 x = true) :
    0 ≤ x ∧ x < 128 ∧ x.toNat % 16 < 8 ∧ x.toNat < 128 := by
  unfold onBoardX88 at h
  simp only [Bool.and_eq_true, decide_eq_true_eq, beq_iff_eq] at h
  obtain ⟨⟨h1, h2⟩, h3⟩ := h
  have hlt : x.toNat < 128 := by omega
  exact ⟨h1, h2, (land136_mod x.toNat hlt).mp h3, hlt⟩

theorem fromX88E_shift_file (s : Nat) (k : Int) (hk : k % 8 = 0) (t : Nat)
    (h : fromX88E ((x88Index s : Int) + k) = .ok t) : sqFile t = sqFile s := by
  unfold fromX88E at h
  split at h
  · simp at h
  · simp only [Except.ok.injEq] at h
    subst h
    rw [sqFile_fromX88]
    rename_i hc
    simp at hc
    have ha : x88Index s % 8 = sqFile s := by
      unfold x88Index sqFile sqRank
      omega
    omega

theorem pseudoContains_elim (P : Position) (m : Move)
    (h : pseudoContains P m = .ok true) :
    ∃ pc ms, P.get m.source = some pc ∧ pieceColor pc = P.turn ∧
      generateFromSquare P m.source = .ok ms ∧ m ∈ ms := by
  unfold pseudoContains at h
  cases hg : generateFromSquare P m.source with
  | error e => rw [hg] at h; simp at h
  | ok ms =>
    rw [hg] at h
    simp at h
    unfold generateFromSquare at hg
    cases hp : P.get m.source with
    | none => rw [hp] at hg; dsimp only at hg; simp at hg; subst hg; simp at h
    | some pc =>
      rw [hp] at hg
      dsimp only at hg
      by_cases hc : (pieceColor pc != P.turn) = true
      · rw [if_pos hc] at hg; simp at hg; subst hg; simp at h
      · refine ⟨pc, ms, rfl, by simpa using hc, rfl, h⟩

theorem mem_ite_list {c : Prop} [Decidable c] {a b : List Move} {m : Move}
    (h : m ∈ (if c then a else b)) : (c ∧ m ∈ a) ∨ (¬c ∧ m ∈ b) := by
  split at h
  · exact Or.inl ⟨by assumption, h⟩
  · exact Or.inr ⟨by assumption, h⟩

theorem mem_pawnCapture (P : Position) (s : Nat) (off : Int) (m : Move)
    (hm : m ∈ pawnCapture P s off) :
    (P.get m.target).isSome = true ∨
    (getEpSquare P = some m.target ∧ m = mkMove s m.target ∧
      (x88Index m.target : Int) = (x88Index s : Int) +
        (if P.turn = 'b' then off else -off)) := by
  unfold pawnCapture at hm
  dsimp only at hm
  simp only [beq_iff_eq] at hm
  by_cases hob : onBoardX88 ((x88Index s : Int) + (if P.turn = 'b' then off else -off)) = true
  · rw [hob] at hm
    simp only [Bool.not_true] at hm
    rw [if_neg (by simp)] at hm
    obtain ⟨h0, h1, h2, h3⟩ := onBoard_elim _ hob
    have hx := x88_fromX88 _ h3 h2
    cases hg : P.get (fromX88 ((x88Index s : Int) + (if P.turn = 'b' then off else -off)).toNat) with
    | some tp =>
      rw [hg] at hm
      dsimp only at hm
      rcases mem_ite_list hm with ⟨-, hm⟩ | ⟨-, hm⟩
      · rcases mem_ite_list hm with ⟨-, hm⟩ | ⟨-, hm⟩
        · simp [promoVariants] at hm
          rcases hm with h | h | h | h <;> (subst h; left; simp [hg])
        · simp at hm; subst hm; left; simp [mkMove, hg]
      · rcases mem_ite_list hm with ⟨-, hm⟩ | ⟨-, hm⟩
        · simp at hm; subst hm; left; simp [mkMove, hg]
        · simp at hm
    | none =>
      rw [hg] at hm
      dsimp only at hm
      rcases mem_ite_list hm with ⟨hep, hm⟩ | ⟨-, hm⟩
      · simp at hm
        subst hm
        refine Or.inr ⟨hep, rfl, ?_⟩
        simp only [mkMove]
        rw [hx]
        omega
      · simp at hm
  · simp only [Bool.not_eq_true] at hob
    rw [hob] at hm
    simp at hm

theorem mem_pawnPushes_file (P : Position) (s : Nat) (pushes : List Move) (m : Move)
    (h : pawnPushes P s = .ok pushes) (hm : m ∈ pushes) :
    sqFile m.target = sqFile s := by
  unfold pawnPushes at h
  simp only [beq_iff_eq] at h
  have hk1 : (if P.turn = 'b' then (16 : Int) else -16) % 8 = 0 := by split <;> decide
  have hk2 : (if P.turn = 'b' then (32 : Int) else -32) % 8 = 0 := by split <;> decide
  cases ht : fromX88E ((x88Index s : Int) + (if P.turn = 'b' then 16 else -16)) with
  | error e => rw [ht] at h; simp at h
  | ok t =>
    rw [ht] at h
    simp only [exc_bind_ok] at h
    have htf : sqFile t = sqFile s := fromX88E_shift_file s _ hk1 t ht
    split at h
    · split at h
      · simp at h; subst h
        simp [promoVariants] at hm
        rcases hm with h1 | h1 | h1 | h1 <;> (subst h1; exact htf)
      · split at h
        · cases ht2 : fromX88E ((x88Index s : Int) + (if P.turn = 'b' then 32 else -32)) with
          | error e => rw [ht2] at h; simp at h
          | ok t2 =>
            rw [ht2] at h
            simp only [exc_bind_ok] at h
            have ht2f : sqFile t2 = sqFile s := fromX88E_shift_file s _ hk2 t2 ht2
            split at h
            · simp at h; subst h
              simp [mkMove] at hm
              rcases hm with h1 | h1 <;> (subst h1; first | exact htf | exact ht2f)
            · simp at h; subst h
              simp [mkMove] at hm
              subst hm; exact htf
        · simp at h; subst h
          simp [mkMove] at hm
          subst hm; exact htf
    · simp at h; subst h; simp at hm

theorem generate_pawn_decomp (P : Position) (s : Nat) (pc : Char) (ms : List Move)
    (hp : P.get s = some pc) (hc : pieceColor pc = P.turn) (hpt : pieceType pc = 'p')
    (hg : generateFromSquare P s = .ok ms) :
    ∃ pushes, pawnPushes P s = .ok pushes ∧
      ms = pushes ++ pawnCapture P s 17 ++ pawnCapture P s 15 := by
  unfold generateFromSquare at hg
  rw [hp] at hg
  dsimp only at hg
  rw [if_neg (by simp [hc])] at hg
  rw [if_pos (by simp [hpt])] at hg
  cases hpp : pawnPushes P s with
  | error e => rw [hpp] at hg; simp at hg
  | ok pushes =>
    rw [hpp] at hg
    simp only [exc_bind_ok, exc_pure] at hg
    rw [if_neg (by simp [hpt])] at hg
    simp at hg
    exact ⟨pushes, rfl, by rw [← hg]; simp⟩



theorem wf_elim (P : Position) (h : wf P = true) :
    P.board.length = 128 ∧
    (P.ep_file = charZero ∨ (97 ≤ P.ep_file.toNat ∧ P.ep_file.toNat ≤ 104)) := by
  unfold wf at h
  simp only [Bool.and_eq_true, beq_iff_eq, Bool.or_eq_true, decide_eq_true_eq] at h
  exact ⟨h.1.1.1.1, by rcases h.1.2 with h1 | h1; exact Or.inl h1; exact Or.inr h1⟩

theorem getEpSquare_elim (P : Position) (eps : Nat) (hwf : wf P = true)
    (h : getEpSquare P = some eps) :
    ∃ f pr, f < 8 ∧
      eps = (if P.turn = 'b' then 2 else 5) * 8 + f ∧
      P.get ((if P.turn = 'b' then 3 else 4) * 8 + f) = some pr ∧
      pieceType pr = 'p' ∧ P.get eps = none := by
  unfold getEpSquare at h
  simp only [beq_iff_eq] at h
  by_cases hz : (P.ep_file.toNat != 0) = true
  · rw [if_pos hz] at h
    have h97 : Char.toNat 'a' = 97 := rfl
    have hf : P.ep_file.toNat - Char.toNat 'a' < 8 := by
      obtain ⟨-, hep⟩ := wf_elim P hwf
      rcases hep with h1 | h1
      · exfalso; rw [h1] at hz; simp [charZero] at hz
      · omega
    refine ⟨P.ep_file.toNat - Char.toNat 'a', ?_⟩
    by_cases hocc :
        (P.get ((if P.turn = 'b' then 2 else 5) * 8 +
          (P.ep_file.toNat - Char.toNat 'a'))).isSome = true
    · rw [if_pos hocc] at h; simp at h
    · rw [if_neg hocc] at h
      cases hps : P.get ((if P.turn = 'b' then 3 else 4) * 8 +
          (P.ep_file.toNat - Char.toNat 'a')) with
      | none => rw [hps] at h; simp at h
      | some pr =>
        rw [hps] at h
        dsimp only at h
        by_cases hptp : (pieceType pr != 'p') = true
        · rw [if_pos hptp] at h; simp at h
        · rw [if_neg hptp] at h
          simp only [Option.some.injEq] at h
          subst h
          simp only [Bool.not_eq_true, bne_eq_false_iff_eq] at hptp
          refine ⟨pr, hf, rfl, rfl, hptp, ?_⟩
          simpa using hocc
  · rw [if_neg hz] at h
    simp at h

theorem applyPromoStep_id (piece : Char) (m : Move) (st : MoveInfo × Position)
    (h : m.promotion = charZero) : applyPromoStep piece m st = st := by
  unfold applyPromoStep
  rw [h]
  simp [charZero]

theorem applyCastleStep_id (piece : Char) (m : Move) (st : MoveInfo × Position)
    (h : pieceType piece = 'p') : applyCastleStep piece m st = st := by
  unfold applyCastleStep
  rw [h]
  simp

theorem applyHalfStep_parts (piece : Char) (st : MoveInfo × Position) :
    (applyHalfStep piece st).1 = st.1 ∧ (applyHalfStep piece st).2.board = st.2.board := by
  unfold applyHalfStep
  split <;> exact ⟨rfl, rfl⟩

theorem applyPlyStep_parts (st : MoveInfo × Position) :
    (applyPlyStep st).1 = st.1 ∧ (applyPlyStep st).2.board = st.2.board := by
  unfold applyPlyStep
  split <;> exact ⟨rfl, rfl⟩

theorem applyRightsStep_parts (st : MoveInfo × Position) :
    (applyRightsStep st).1 = st.1 ∧ (applyRightsStep st).2.board = st.2.board := by
  unfold applyRightsStep
  split <;> exact ⟨rfl, rfl⟩

theorem applyPawnStep_ep (piece : Char) (m : Move) (st : MoveInfo × Position)
    (hpt : pieceType piece = 'p')
    (hfil : ¬ sqFile m.target = sqFile m.source)
    (hcap : st.1.captured = none) :
    (applyPawnStep piece m st).1.is_enpassant = true ∧
    (applyPawnStep piece m st).1.captured =
      st.2.board.getD (x88Index (if st.2.turn = 'b' then 4 * 8 + sqFile m.target
                                 else 3 * 8 + sqFile m.target)) none ∧
    (applyPawnStep piece m st).2.board =
      st.2.board.set (x88Index (if st.2.turn = 'b' then 4 * 8 + sqFile m.target
                                else 3 * 8 + sqFile m.target)) none := by
  unfold applyPawnStep
  have h1 : (pieceType piece == 'p') = true := by simp [hpt]
  have h2 : (sqFile m.target != sqFile m.source && st.1.captured.isNone) = true := by
    simp [hfil, hcap]
  simp only [beq_iff_eq, h1, h2, hpt, if_true, eq_self_iff_true]
  split <;> exact ⟨rfl, rfl, rfl⟩


theorem x88_mod16 (s : Nat) : x88Index s % 16 = sqFile s := by
  unfold x88Index sqFile sqRank
  omega

theorem wf_turn (P : Position) (h : wf P = true) : P.turn = 'w' ∨ P.turn = 'b' := by
  unfold wf at h
  simp only [Bool.and_eq_true, Bool.or_eq_true, beq_iff_eq] at h
  exact h.1.1.2

theorem getD_set_ne_aux (l : List (Option Char)) (i j : Nat) (v : Option Char)
    (hij : i ≠ j) : (l.set i v).getD j none = l.getD j none := by
  simp [List.getD, List.getElem?_set_ne hij]

theorem getD_set_self_aux (l : List (Option Char)) (i : Nat) (h : i < l.length) :
    (l.set i none).getD i none = none := by
  simp [List.getD, List.getElem?_set_self, h]

theorem c6_ep_core (P : Position) (m : Move) (pc : Char)
    (hwf : wf P = true)
    (hsrc : P.get m.source = some pc) (hpt : pieceType pc = 'p')
    (hfil : sqFile m.target ≠ sqFile m.source)
    (hemp : P.get m.target = none)
    (hep : getEpSquare P = some m.target)
    (hprom : m.promotion = charZero) :
    ∃ r, makeUnvalidatedMoveFast P m = .ok r ∧
      r.1.is_enpassant = true ∧
      (∃ cap, P.get (c6CodeCapSq P.turn m) = some cap ∧ pieceType cap = 'p') ∧
      r.1.captured = P.get (c6CodeCapSq P.turn m) ∧
      r.2.get (c6CodeCapSq P.turn m) = none := by
  obtain ⟨f, pr, hf8, htgt, hpr, hprp, -⟩ := getEpSquare_elim P m.target hwf hep
  have hlen := (wf_elim P hwf).1
  have hturn := wf_turn P hwf
  have hft : sqFile m.target = f := by
    rw [htgt]; split <;> (unfold sqFile; omega)
  have hcs : c6CodeCapSq P.turn m = (if P.turn = 'b' then 3 else 4) * 8 + f := by
    unfold c6CodeCapSq
    rcases hturn with ht | ht <;> rw [ht] <;> simp [hft]
  have hprcs : P.get (c6CodeCapSq P.turn m) = some pr := by rw [hcs]; exact hpr
  have hcsf : sqFile ((if P.turn = 'b' then 3 else 4) * 8 + f) = f := by
    split <;> (unfold sqFile; omega)
  have hxne_src : x88Index ((if P.turn = 'b' then 3 else 4) * 8 + f) ≠ x88Index m.source := by
    intro he
    apply hfil
    have h1 := x88_mod16 ((if P.turn = 'b' then 3 else 4) * 8 + f)
    have h2 := x88_mod16 m.source
    rw [he] at h1
    rw [hft]
    omega
  have hxne_tgt : x88Index ((if P.turn = 'b' then 3 else 4) * 8 + f) ≠ x88Index m.target := by
    rw [htgt]
    split_ifs <;> (unfold x88Index sqFile sqRank; omega)
  have hcslt : x88Index ((if P.turn = 'b' then 3 else 4) * 8 + f) < 128 := by
    split <;> (unfold x88Index sqFile sqRank; omega)
  have hcapB : (applyBaseStep P m pc).1.captured = none := hemp
  have hpe := applyPawnStep_ep pc m (applyBaseStep P m pc) hpt hfil hcapB
  have hbt : (applyBaseStep P m pc).2.turn = (if P.turn == 'w' then 'b' else 'w') := rfl
  have hcapx : (if (applyBaseStep P m pc).2.turn = 'b' then 4 * 8 + sqFile m.target
               else 3 * 8 + sqFile m.target) = (if P.turn = 'b' then 3 else 4) * 8 + f := by
    rcases hturn with ht | ht <;> rw [hbt, ht] <;> simp [hft]
  have hbb : (applyBaseStep P m pc).2.board =
      (P.board.set (x88Index m.target) (P.get m.source)).set (x88Index m.source) none := rfl
  unfold makeUnvalidatedMoveFast
  rw [hsrc]
  dsimp only
  rw [applyPromoStep_id pc m _ hprom, applyCastleStep_id pc m _ hpt]
  have h6 := applyRightsStep_parts
    (applyPlyStep (applyHalfStep pc (applyPawnStep pc m (applyBaseStep P m pc))))
  have h5 := applyPlyStep_parts (applyHalfStep pc (applyPawnStep pc m (applyBaseStep P m pc)))
  have h4 := applyHalfStep_parts pc (applyPawnStep pc m (applyBaseStep P m pc))
  refine ⟨_, rfl, ?_, ⟨pr, hprcs, hprp⟩, ?_, ?_⟩
  · rw [h6.1, h5.1, h4.1]
    exact hpe.1
  · rw [h6.1, h5.1, h4.1, hpe.2.1, hcapx, hbb,
        getD_set_ne_aux _ _ _ _ (Ne.symm hxne_src),
        getD_set_ne_aux _ _ _ _ (Ne.symm hxne_tgt), hcs]
    rfl
  · show (applyRightsStep (applyPlyStep (applyHalfStep pc
      (applyPawnStep pc m (applyBaseStep P m pc))))).2.board.getD
        (x88Index (c6CodeCapSq P.turn m)) none = none
    rw [h6.2, h5.2, h4.2, hpe.2.2, hcapx, hcs]
    refine getD_set_self_aux _ _ ?_
    rw [hbb, List.length_set, List.length_set, hlen]
    exact hcslt

/-- C6 (amended): in `make_unvalidated_move_fast`, a pseudo-legal pawn move
whose target file differs from its source file and whose target square is
empty is applied as an en-passant capture: the result is flagged
`is_enpassant`, a pawn stands on the square the engine clears, the cleared
square is recorded as the capture, and it is empty afterwards.  That square
sits at the target's file on rank index 4 (the rank the mover came from)
when *white* made the move and on rank index 3 when *black* made the move —
the opposite of the rank assignment in the claim, which theorem
`C6_counterexample` refutes on the e5d6 fixture. -/
theorem C6_enpassant (P : Position) (m : Move) (pc : Char)
    (hwf : wf P = true)
    (hpl : pseudoContains P m = .ok true)
    (hsrc : P.get m.source = some pc) (hpt : pieceType pc = 'p')
    (hfil : sqFile m.target ≠ sqFile m.source)
    (hemp : P.get m.target = none) :
    ∃ r, makeUnvalidatedMoveFast P m = .ok r ∧
      r.1.is_enpassant = true ∧
      (∃ cap, P.get (c6CodeCapSq P.turn m) = some cap ∧ pieceType cap = 'p') ∧
      r.1.captured = P.get (c6CodeCapSq P.turn m) ∧
      r.2.get (c6CodeCapSq P.turn m) = none := by
  obtain ⟨pc2, ms, hsrc2, hcol, hg, hmem⟩ := pseudoContains_elim P m hpl
  rw [hsrc] at hsrc2
  simp only [Option.some.injEq] at hsrc2
  subst hsrc2
  obtain ⟨pushes, hpp, hms⟩ := generate_pawn_decomp P m.source pc ms hsrc hcol hpt hg
  subst hms
  rw [List.mem_append, List.mem_append] at hmem
  rcases hmem with (hmem | hmem) | hmem
  · exact absurd (mem_pawnPushes_file P m.source pushes m hpp hmem) hfil
  · rcases mem_pawnCapture P m.source 17 m hmem with hs | ⟨hep, hmk, -⟩
    · rw [hemp] at hs; simp at hs
    · exact c6_ep_core P m pc hwf hsrc hpt hfil hemp hep (by rw [hmk]; rfl)
  · rcases mem_pawnCapture P m.source 15 m hmem with hs | ⟨hep, hmk, -⟩
    · rw [hemp] at hs; simp at hs
    · exact c6_ep_core P m pc hwf hsrc hpt hfil hemp hep (by rw [hmk]; rfl)




/-- C6 witness: the e5d6 en-passant capture on the d6-ep fixture. -/
theorem C6_witness :
    wf epTestPos = true ∧
    ∃ r, makeUnvalidatedMoveFast epTestPos epMove = .ok r ∧
      r.1.is_enpassant = true ∧
      (∃ cap, epTestPos.get (c6CodeCapSq epTestPos.turn epMove) = some cap ∧
        pieceType cap = 'p') ∧
      r.1.captured = epTestPos.get (c6CodeCapSq epTestPos.turn epMove) ∧
      r.2.get (c6CodeCapSq epTestPos.turn epMove) = none :=
  ⟨by decide, C6_enpassant epTestPos epMove 'P' (by decide) (by decide) (by decide)
    (by decide) (by decide) (by decide)⟩

theorem insufficientStep_none (P : Position) (L : List Nat) :
    L.foldl (insufficientStep P) none = none := by
  induction L with
  | nil => rfl
  | cons j L ih =>
    rw [List.foldl_cons, show insufficientStep P none j = none from rfl]
    exact ih

theorem insufficientStep_heavy (P : Position) (j : Nat)
    (s : Option (Int × Int × Int × Int × Int))
    (h : heavyCell (P.board.getD j none) = true) :
    insufficientStep P s j = none := by
  cases s with
  | none => rfl
  | some t =>
    obtain ⟨a, b, c, d, e⟩ := t
    unfold heavyCell at h
    cases hcell : P.board.getD j none with
    | none => rw [hcell] at h; simp at h
    | some pc =>
      rw [hcell] at h
      simp only [Bool.or_eq_true, beq_iff_eq, Option.some.injEq] at h
      unfold insufficientStep
      rw [hcell]
      rcases h with ((((rfl | rfl) | rfl) | rfl) | rfl) | rfl <;> rfl

theorem insufficient_fold_heavy (P : Position) (L : List Nat)
    (s : Option (Int × Int × Int × Int × Int))
    (hh : ∃ i ∈ L, heavyCell (P.board.getD i none) = true) :
    L.foldl (insufficientStep P) s = none := by
  induction L generalizing s with
  | nil => simp at hh
  | cons j L ih =>
    obtain ⟨i, hi, hhv⟩ := hh
    rw [List.foldl_cons]
    rcases List.mem_cons.mp hi with rfl | hi2
    · rw [insufficientStep_heavy P i s hhv]
      exact insufficientStep_none P L
    · exact ih _ ⟨i, hi2, hhv⟩

theorem filter_cons_pos {α : Type} (p : α → Bool) (a : α) (l : List α)
    (h : p a = true) : ((a :: l).filter p).length = (l.filter p).length + 1 := by
  simp [List.filter_cons, h]

theorem filter_cons_neg {α : Type} (p : α → Bool) (a : α) (l : List α)
    (h : p a = false) : ((a :: l).filter p).length = (l.filter p).length := by
  simp [List.filter_cons, h]

theorem insufficient_fold (P : Position) (L : List Nat)
    (hh : ∀ i ∈ L, heavyCell (P.board.getD i none) = false)
    (a b c d e : Int) :
    L.foldl (insufficientStep P) (some (a, b, c, d, e)) =
      some (a + ((L.filter (fun i => (P.board.getD i none).isSome)).length : Int),
            b + ((L.filter (fun i => P.board.getD i none == some 'b')).length : Int),
            c + ((L.filter (fun i => P.board.getD i none == some 'B')).length : Int),
            d + ((L.filter (fun i => (P.board.getD i none == some 'b' ||
                   P.board.getD i none == some 'B') &&
                   !sqIsDark (fromX88 i))).length : Int),
            e + ((L.filter (fun i => (P.board.getD i none == some 'b' ||
                   P.board.getD i none == some 'B') &&
                   sqIsDark (fromX88 i))).length : Int)) := by
  induction L generalizing a b c d e with
  | nil => simp
  | cons j L ih =>
    have hhj := hh j (by simp)
    have hht : ∀ i ∈ L, heavyCell (P.board.getD i none) = false :=
      fun i hi => hh i (by simp [hi])
    rw [List.foldl_cons]
    cases hcell : P.board.getD j none with
    | none =>
      have q1 : (P.board.getD j none).isSome = false := by rw [hcell]; rfl
      have q2 : (P.board.getD j none == some 'b') = false := by rw [hcell]; rfl
      have q3 : (P.board.getD j none == some 'B') = false := by rw [hcell]; rfl
      have q4 : ((P.board.getD j none == some 'b' || P.board.getD j none == some 'B') &&
          !sqIsDark (fromX88 j)) = false := by rw [hcell]; rfl
      have q5 : ((P.board.getD j none == some 'b' || P.board.getD j none == some 'B') &&
          sqIsDark (fromX88 j)) = false := by rw [hcell]; rfl
      rw [show insufficientStep P (some (a, b, c, d, e)) j = some (a, b, c, d, e) by
            unfold insufficientStep; rw [hcell]]
      rw [ih hht a b c d e,
          filter_cons_neg _ j L q1,
          filter_cons_neg _ j L q2,
          filter_cons_neg _ j L q3,
          filter_cons_neg _ j L q4,
          filter_cons_neg _ j L q5]
    | some pc =>
      by_cases hb : pc = 'b'
      · subst hb
        have q1 : (P.board.getD j none).isSome = true := by rw [hcell]; rfl
        have q2 : (P.board.getD j none == some 'b') = true := by rw [hcell]; rfl
        have q3 : (P.board.getD j none == some 'B') = false := by rw [hcell]; rfl
        by_cases hdark : sqIsDark (fromX88 j) = true
        · have q4 : ((P.board.getD j none == some 'b' || P.board.getD j none == some 'B') &&
              !sqIsDark (fromX88 j)) = false := by rw [hcell, hdark]; rfl
          have q5 : ((P.board.getD j none == some 'b' || P.board.getD j none == some 'B') &&
              sqIsDark (fromX88 j)) = true := by rw [hcell, hdark]; rfl
          rw [show insufficientStep P (some (a, b, c, d, e)) j =
                some (a + 1, b + 1, c - 1 + 1, d, e + 1) by
              unfold insufficientStep; rw [hcell]; simp [hdark]]
          rw [ih hht (a + 1) (b + 1) (c - 1 + 1) d (e + 1),
              filter_cons_pos _ j L q1,
              filter_cons_pos _ j L q2,
              filter_cons_neg _ j L q3,
              filter_cons_neg _ j L q4,
              filter_cons_pos _ j L q5]
          simp only [Option.some.injEq, Prod.mk.injEq]
          and_intros <;> first | trivial | omega
        · have hdf : sqIsDark (fromX88 j) = false := by simpa using hdark
          have q4 : ((P.board.getD j none == some 'b' || P.board.getD j none == some 'B') &&
              !sqIsDark (fromX88 j)) = true := by rw [hcell, hdf]; rfl
          have q5 : ((P.board.getD j none == some 'b' || P.board.getD j none == some 'B') &&
              sqIsDark (fromX88 j)) = false := by rw [hcell, hdf]; rfl
          rw [show insufficientStep P (some (a, b, c, d, e)) j =
                some (a + 1, b + 1, c - 1 + 1, d + 1, e) by
              unfold insufficientStep; rw [hcell]; simp [hdf]]
          rw [ih hht (a + 1) (b + 1) (c - 1 + 1) (d + 1) e,
              filter_cons_pos _ j L q1,
              filter_cons_pos _ j L q2,
              filter_cons_neg _ j L q3,
              filter_cons_pos _ j L q4,
              filter_cons_neg _ j L q5]
          simp only [Option.some.injEq, Prod.mk.injEq]
          and_intros <;> first | trivial | omega
      · by_cases hB : pc = 'B'
        · subst hB
          have q1 : (P.board.getD j none).isSome = true := by rw [hcell]; rfl
          have q2 : (P.board.getD j none == some 'b') = false := by rw [hcell]; rfl
          have q3 : (P.board.getD j none == some 'B') = true := by rw [hcell]; rfl
          by_cases hdark : sqIsDark (fromX88 j) = true
          · have q4 : ((P.board.getD j none == some 'b' || P.board.getD j none == some 'B') &&
                !sqIsDark (fromX88 j)) = false := by rw [hcell, hdark]; rfl
            have q5 : ((P.board.getD j none == some 'b' || P.board.getD j none == some 'B') &&
                sqIsDark (fromX88 j)) = true := by rw [hcell, hdark]; rfl
            rw [show insufficientStep P (some (a, b, c, d, e)) j =
                  some (a + 1, b, c + 1, d, e + 1) by
                unfold insufficientStep; rw [hcell]; simp [hdark]]
            rw [ih hht (a + 1) b (c + 1) d (e + 1),
                filter_cons_pos _ j L q1,
                filter_cons_neg _ j L q2,
                filter_cons_pos _ j L q3,
                filter_cons_neg _ j L q4,
                filter_cons_pos _ j L q5]
            simp only [Option.some.injEq, Prod.mk.injEq]
            and_intros <;> first | trivial | omega
          · have hdf : sqIsDark (fromX88 j) = false := by simpa using hdark
            have q4 : ((P.board.getD j none == some 'b' || P.board.getD j none == some 'B') &&
                !sqIsDark (fromX88 j)) = true := by rw [hcell, hdf]; rfl
            have q5 : ((P.board.getD j none == some 'b' || P.board.getD j none == some 'B') &&
                sqIsDark (fromX88 j)) = false := by rw [hcell, hdf]; rfl
            rw [show insufficientStep P (some (a, b, c, d, e)) j =
                  some (a + 1, b, c + 1, d + 1, e) by
                unfold insufficientStep; rw [hcell]; simp [hdf]]
            rw [ih hht (a + 1) b (c + 1) (d + 1) e,
                filter_cons_pos _ j L q1,
                filter_cons_neg _ j L q2,
                filter_cons_pos _ j L q3,
                filter_cons_pos _ j L q4,
                filter_cons_neg _ j L q5]
            simp only [Option.some.injEq, Prod.mk.injEq]
            and_intros <;> first | trivial | omega
        · rw [hcell] at hhj
          unfold heavyCell at hhj
          simp only [Bool.or_eq_false_iff, beq_eq_false_iff_ne, ne_eq,
            Option.some.injEq] at hhj
          obtain ⟨⟨⟨⟨⟨hq, hQ⟩, hp⟩, hP⟩, hr⟩, hR⟩ := hhj
          have q1 : (P.board.getD j none).isSome = true := by rw [hcell]; rfl
          have q2 : (P.board.getD j none == some 'b') = false := by
            rw [hcell]; simp [hb]
          have q3 : (P.board.getD j none == some 'B') = false := by
            rw [hcell]; simp [hB]
          have q4 : ((P.board.getD j none == some 'b' || P.board.getD j none == some 'B') &&
              !sqIsDark (fromX88 j)) = false := by rw [hcell]; simp [hb, hB]
          have q5 : ((P.board.getD j none == some 'b' || P.board.getD j none == some 'B') &&
              sqIsDark (fromX88 j)) = false := by rw [hcell]; simp [hb, hB]
          rw [show insufficientStep P (some (a, b, c, d, e)) j =
                some (a + 1, b, c, d, e) by
              unfold insufficientStep; rw [hcell]
              simp [beq_iff_eq, hb, hB, hq, hQ, hp, hP, hr, hR]]
          rw [ih hht (a + 1) b c d e,
              filter_cons_pos _ j L q1,
              filter_cons_neg _ j L q2,
              filter_cons_neg _ j L q3,
              filter_cons_neg _ j L q4,
              filter_cons_neg _ j L q5]
          simp only [Option.some.injEq, Prod.mk.injEq]
          and_intros <;> first | trivial | omega

theorem occ_split (P : Position) (L : List Nat)
    (hv : ∀ i ∈ L, ∀ pc, P.board.getD i none = some pc → isPieceSymbol pc = true) :
    (L.filter (fun i => (P.board.getD i none).isSome)).length =
      (L.filter (fun i => P.board.getD i none == some 'p')).length +
      (L.filter (fun i => P.board.getD i none == some 'n')).length +
      (L.filter (fun i => P.board.getD i none == some 'b')).length +
      (L.filter (fun i => P.board.getD i none == some 'r')).length +
      (L.filter (fun i => P.board.getD i none == some 'q')).length +
      (L.filter (fun i => P.board.getD i none == some 'k')).length +
      (L.filter (fun i => P.board.getD i none == some 'P')).length +
      (L.filter (fun i => P.board.getD i none == some 'N')).length +
      (L.filter (fun i => P.board.getD i none == some 'B')).length +
      (L.filter (fun i => P.board.getD i none == some 'R')).length +
      (L.filter (fun i => P.board.getD i none == some 'Q')).length +
      (L.filter (fun i => P.board.getD i none == some 'K')).length := by
  induction L with
  | nil => rfl
  | cons j L ih =>
    have hvt : ∀ i ∈ L, ∀ pc, P.board.getD i none = some pc → isPieceSymbol pc = true :=
      fun i hi => hv i (by simp [hi])
    have ihe := ih hvt
    cases hcell : P.board.getD j none with
    | none =>
      rw [filter_cons_neg _ j L (by rw [hcell]; rfl),
          filter_cons_neg _ j L (show (P.board.getD j none == some 'p') = false by rw [hcell]; rfl),
          filter_cons_neg _ j L (show (P.board.getD j none == some 'n') = false by rw [hcell]; rfl),
          filter_cons_neg _ j L (show (P.board.getD j none == some 'b') = false by rw [hcell]; rfl),
          filter_cons_neg _ j L (show (P.board.getD j none == some 'r') = false by rw [hcell]; rfl),
          filter_cons_neg _ j L (show (P.board.getD j none == some 'q') = false by rw [hcell]; rfl),
          filter_cons_neg _ j L (show (P.board.getD j none == some 'k') = false by rw [hcell]; rfl),
          filter_cons_neg _ j L (show (P.board.getD j none == some 'P') = false by rw [hcell]; rfl),
          filter_cons_neg _ j L (show (P.board.getD j none == some 'N') = false by rw [hcell]; rfl),
          filter_cons_neg _ j L (show (P.board.getD j none == some 'B') = false by rw [hcell]; rfl),
          filter_cons_neg _ j L (show (P.board.getD j none == some 'R') = false by rw [hcell]; rfl),
          filter_cons_neg _ j L (show (P.board.getD j none == some 'Q') = false by rw [hcell]; rfl),
          filter_cons_neg _ j L (show (P.board.getD j none == some 'K') = false by rw [hcell]; rfl)]
      exact ihe
    | some pc =>
      have hs := hv j (by simp) pc hcell
      unfold isPieceSymbol at hs
      simp only [Bool.or_eq_true, beq_iff_eq] at hs
      rcases hs with (((((((((((rfl | rfl) | rfl) | rfl) | rfl) | rfl) | rfl) | rfl) | rfl) | rfl) | rfl) | rfl)
      · rw [filter_cons_pos _ j L (show (P.board.getD j none).isSome = true by rw [hcell]; rfl),
            filter_cons_pos _ j L (show (P.board.getD j none == some 'p') = true by rw [hcell]; rfl),
            filter_cons_neg _ j L (show (P.board.getD j none == some 'n') = false by rw [hcell]; rfl),
            filter_cons_neg _ j L (show (P.board.getD j none == some 'b') = false by rw [hcell]; rfl),
            filter_cons_neg _ j L (show (P.board.getD j none == some 'r') = false by rw [hcell]; rfl),
            filter_cons_neg _ j L (show (P.board.getD j none == some 'q') = false by rw [hcell]; rfl),
            filter_cons_neg _ j L (show (P.board.getD j none == some 'k') = false by rw [hcell]; rfl),
            filter_cons_neg _ j L (show (P.board.getD j none == some 'P') = false by rw [hcell]; rfl),
            filter_cons_neg _ j L (show (P.board.getD j none == some 'N') = false by rw [hcell]; rfl),
            filter_cons_neg _ j L (show (P.board.getD j none == some 'B') = false by rw [hcell]; rfl),
            filter_cons_neg _ j L (show (P.board.getD j none == some 'R') = false by rw [hcell]; rfl),
            filter_cons_neg _ j L (show (P.board.getD j none == some 'Q') = false by rw [hcell]; rfl),
            filter_cons_neg _ j L (show (P.board.getD j none == some 'K') = false by rw [hcell]; rfl)]
        omega
      · rw [filter_cons_pos _ j L (show (P.board.getD j none).isSome = true by rw [hcell]; rfl),
            filter_cons_neg _ j L (show (P.board.getD j none == some 'p') = false by rw [hcell]; rfl),
            filter_cons_pos _ j L (show (P.board.getD j none == some 'n') = true by rw [hcell]; rfl),
            filter_cons_neg _ j L (show (P.board.getD j none == some 'b') = false by rw [hcell]; rfl),
            filter_cons_neg _ j L (show (P.board.getD j none == some 'r') = false by rw [hcell]; rfl),
            filter_cons_neg _ j L (show (P.board.getD j none == some 'q') = false by rw [hcell]; rfl),
            filter_cons_neg _ j L (show (P.board.getD j none == some 'k') = false by rw [hcell]; rfl),
            filter_cons_neg _ j L (show (P.board.getD j none == some 'P') = false by rw [hcell]; rfl),
            filter_cons_neg _ j L (show (P.board.getD j none == some 'N') = false by rw [hcell]; rfl),
            filter_cons_neg _ j L (show (P.board.getD j none == some 'B') = false by rw [hcell]; rfl),
            filter_cons_neg _ j L (show (P.board.getD j none == some 'R') = false by rw [hcell]; rfl),
            filter_cons_neg _ j L (show (P.board.getD j none == some 'Q') = false by rw [hcell]; rfl),
            filter_cons_neg _ j L (show (P.board.getD j none == some 'K') = false by rw [hcell]; rfl)]
        omega
      · rw [filter_cons_pos _ j L (show (P.board.getD j none).isSome = true by rw [hcell]; rfl),
            filter_cons_neg _ j L (show (P.board.getD j none == some 'p') = false by rw [hcell]; rfl),
            filter_cons_neg _ j L (show (P.board.getD j none == some 'n') = false by rw [hcell]; rfl),
            filter_cons_pos _ j L (show (P.board.getD j none == some 'b') = true by rw [hcell]; rfl),
            filter_cons_neg _ j L (show (P.board.getD j none == some 'r') = false by rw [hcell]; rfl),
            filter_cons_neg _ j L (show (P.board.getD j none == some 'q') = false by rw [hcell]; rfl),
            filter_cons_neg _ j L (show (P.board.getD j none == some 'k') = false by rw [hcell]; rfl),
            filter_cons_neg _ j L (show (P.board.getD j none == some 'P') = false by rw [hcell]; rfl),
            filter_cons_neg _ j L (show (P.board.getD j none == some 'N') = false by rw [hcell]; rfl),
            filter_cons_neg _ j L (show (P.board.getD j none == some 'B') = false by rw [hcell]; rfl),
            filter_cons_neg _ j L (show (P.board.getD j none == some 'R') = false by rw [hcell]; rfl),
            filter_cons_neg _ j L (show (P.board.getD j none == some 'Q') = false by rw [hcell]; rfl),
            filter_cons_neg _ j L (show (P.board.getD j none == some 'K') = false by rw [hcell]; rfl)]
        omega
      · rw [filter_cons_pos _ j L (show (P.board.getD j none).isSome = true by rw [hcell]; rfl),
            filter_cons_neg _ j L (show (P.board.getD j none == some 'p') = false by rw [hcell]; rfl),
            filter_cons_neg _ j L (show (P.board.getD j none == some 'n') = false by rw [hcell]; rfl),
            filter_cons_neg _ j L (show (P.board.getD j none == some 'b') = false by rw [hcell]; rfl),
            filter_cons_pos _ j L (show (P.board.getD j none == some 'r') = true by rw [hcell]; rfl),
            filter_cons_neg _ j L (show (P.board.getD j none == some 'q') = false by rw [hcell]; rfl),
            filter_cons_neg _ j L (show (P.board.getD j none == some 'k') = false by rw [hcell]; rfl),
            filter_cons_neg _ j L (show (P.board.getD j none == some 'P') = false by rw [hcell]; rfl),
            filter_cons_neg _ j L (show (P.board.getD j none == some 'N') = false by rw [hcell]; rfl),
            filter_cons_neg _ j L (show (P.board.getD j none == some 'B') = false by rw [hcell]; rfl),
            filter_cons_neg _ j L (show (P.board.getD j none == some 'R') = false by rw [hcell]; rfl),
            filter_cons_neg _ j L (show (P.board.getD j none == some 'Q') = false by rw [hcell]; rfl),
            filter_cons_neg _ j L (show (P.board.getD j none == some 'K') = false by rw [hcell]; rfl)]
        omega
      · rw [filter_cons_pos _ j L (show (P.board.getD j none).isSome = true by rw [hcell]; rfl),
            filter_cons_neg _ j L (show (P.board.getD j none == some 'p') = false by rw [hcell]; rfl),
            filter_cons_neg _ j L (show (P.board.getD j none == some 'n') = false by rw [hcell]; rfl),
            filter_cons_neg _ j L (show (P.board.getD j none == some 'b') = false by rw [hcell]; rfl),
            filter_cons_neg _ j L (show (P.board.getD j none == some 'r') = false by rw [hcell]; rfl),
            filter_cons_pos _ j L (show (P.board.getD j none == some 'q') = true by rw [hcell]; rfl),
            filter_cons_neg _ j L (show (P.board.getD j none == some 'k') = false by rw [hcell]; rfl),
            filter_cons_neg _ j L (show (P.board.getD j none == some 'P') = false by rw [hcell]; rfl),
            filter_cons_neg _ j L (show (P.board.getD j none == some 'N') = false by rw [hcell]; rfl),
            filter_cons_neg _ j L (show (P.board.getD j none == some 'B') = false by rw [hcell]; rfl),
            filter_cons_neg _ j L (show (P.board.getD j none == some 'R') = false by rw [hcell]; rfl),
            filter_cons_neg _ j L (show (P.board.getD j none == some 'Q') = false by rw [hcell]; rfl),
            filter_cons_neg _ j L (show (P.board.getD j none == some 'K') = false by rw [hcell]; rfl)]
        omega
      · rw [filter_cons_pos _ j L (show (P.board.getD j none).isSome = true by rw [hcell]; rfl),
            filter_cons_neg _ j L (show (P.board.getD j none == some 'p') = false by rw [hcell]; rfl),
            filter_cons_neg _ j L (show (P.board.getD j none == some 'n') = false by rw [hcell]; rfl),
            filter_cons_neg _ j L (show (P.board.getD j none == some 'b') = false by rw [hcell]; rfl),
            filter_cons_neg _ j L (show (P.board.getD j none == some 'r') = false by rw [hcell]; rfl),
            filter_cons_neg _ j L (show (P.board.getD j none == some 'q') = false by rw [hcell]; rfl),
            filter_cons_pos _ j L (show (P.board.getD j none == some 'k') = true by rw [hcell]; rfl),
            filter_cons_neg _ j L (show (P.board.getD j none == some 'P') = false by rw [hcell]; rfl),
            filter_cons_neg _ j L (show (P.board.getD j none == some 'N') = false by rw [hcell]; rfl),
            filter_cons_neg _ j L (show (P.board.getD j none == some 'B') = false by rw [hcell]; rfl),
            filter_cons_neg _ j L (show (P.board.getD j none == some 'R') = false by rw [hcell]; rfl),
            filter_cons_neg _ j L (show (P.board.getD j none == some 'Q') = false by rw [hcell]; rfl),
            filter_cons_neg _ j L (show (P.board.getD j none == some 'K') = false by rw [hcell]; rfl)]
        omega
      · rw [filter_cons_pos _ j L (show (P.board.getD j none).isSome = true by rw [hcell]; rfl),
            filter_cons_neg _ j L (show (P.board.getD j none == some 'p') = false by rw [hcell]; rfl),
            filter_cons_neg _ j L (show (P.board.getD j none == some 'n') = false by rw [hcell]; rfl),
            filter_cons_neg _ j L (show (P.board.getD j none == some 'b') = false by rw [hcell]; rfl),
            filter_cons_neg _ j L (show (P.board.getD j none == some 'r') = false by rw [hcell]; rfl),
            filter_cons_neg _ j L (show (P.board.getD j none == some 'q') = false by rw [hcell]; rfl),
            filter_cons_neg _ j L (show (P.board.getD j none == some 'k') = false by rw [hcell]; rfl),
            filter_cons_pos _ j L (show (P.board.getD j none == some 'P') = true by rw [hcell]; rfl),
            filter_cons_neg _ j L (show (P.board.getD j none == some 'N') = false by rw [hcell]; rfl),
            filter_cons_neg _ j L (show (P.board.getD j none == some 'B') = false by rw [hcell]; rfl),
            filter_cons_neg _ j L (show (P.board.getD j none == some 'R') = false by rw [hcell]; rfl),
            filter_cons_neg _ j L (show (P.board.getD j none == some 'Q') = false by rw [hcell]; rfl),
            filter_cons_neg _ j L (show (P.board.getD j none == some 'K') = false by rw [hcell]; rfl)]
        omega
      · rw [filter_cons_pos _ j L (show (P.board.getD j none).isSome = true by rw [hcell]; rfl),
            filter_cons_neg _ j L (show (P.board.getD j none == some 'p') = false by rw [hcell]; rfl),
            filter_cons_neg _ j L (show (P.board.getD j none == some 'n') = false by rw [hcell]; rfl),
            filter_cons_neg _ j L (show (P.board.getD j none == some 'b') = false by rw [hcell]; rfl),
            filter_cons_neg _ j L (show (P.board.getD j none == some 'r') = false by rw [hcell]; rfl),
            filter_cons_neg _ j L (show (P.board.getD j none == some 'q') = false by rw [hcell]; rfl),
            filter_cons_neg _ j L (show (P.board.getD j none == some 'k') = false by rw [hcell]; rfl),
            filter_cons_neg _ j L (show (P.board.getD j none == some 'P') = false by rw [hcell]; rfl),
            filter_cons_pos _ j L (show (P.board.getD j none == some 'N') = true by rw [hcell]; rfl),
            filter_cons_neg _ j L (show (P.board.getD j none == some 'B') = false by rw [hcell]; rfl),
            filter_cons_neg _ j L (show (P.board.getD j none == some 'R') = false by rw [hcell]; rfl),
            filter_cons_neg _ j L (show (P.board.getD j none == some 'Q') = false by rw [hcell]; rfl),
            filter_cons_neg _ j L (show (P.board.getD j none == some 'K') = false by rw [hcell]; rfl)]
        omega
      · rw [filter_cons_pos _ j L (show (P.board.getD j none).isSome = true by rw [hcell]; rfl),
            filter_cons_neg _ j L (show (P.board.getD j none == some 'p') = false by rw [hcell]; rfl),
            filter_cons_neg _ j L (show (P.board.getD j none == some 'n') = false by rw [hcell]; rfl),
            filter_cons_neg _ j L (show (P.board.getD j none == some 'b') = false by rw [hcell]; rfl),
            filter_cons_neg _ j L (show (P.board.getD j none == some 'r') = false by rw [hcell]; rfl),
            filter_cons_neg _ j L (show (P.board.getD j none == some 'q') = false by rw [hcell]; rfl),
            filter_cons_neg _ j L (show (P.board.getD j none == some 'k') = false by rw [hcell]; rfl),
            filter_cons_neg _ j L (show (P.board.getD j none == some 'P') = false by rw [hcell]; rfl),
            filter_cons_neg _ j L (show (P.board.getD j none == some 'N') = false by rw [hcell]; rfl),
            filter_cons_pos _ j L (show (P.board.getD j none == some 'B') = true by rw [hcell]; rfl),
            filter_cons_neg _ j L (show (P.board.getD j none == some 'R') = false by rw [hcell]; rfl),
            filter_cons_neg _ j L (show (P.board.getD j none == some 'Q') = false by rw [hcell]; rfl),
            filter_cons_neg _ j L (show (P.board.getD j none == some 'K') = false by rw [hcell]; rfl)]
        omega
      · rw [filter_cons_pos _ j L (show (P.board.getD j none).isSome = true by rw [hcell]; rfl),
            filter_cons_neg _ j L (show (P.board.getD j none == some 'p') = false by rw [hcell]; rfl),
            filter_cons_neg _ j L (show (P.board.getD j none == some 'n') = false by rw [hcell]; rfl),
            filter_cons_neg _ j L (show (P.board.getD j none == some 'b') = false by rw [hcell]; rfl),
            filter_cons_neg _ j L (show (P.board.getD j none == some 'r') = false by rw [hcell]; rfl),
            filter_cons_neg _ j L (show (P.board.getD j none == some 'q') = false by rw [hcell]; rfl),
            filter_cons_neg _ j L (show (P.board.getD j none == some 'k') = false by rw [hcell]; rfl),
            filter_cons_neg _ j L (show (P.board.getD j none == some 'P') = false by rw [hcell]; rfl),
            filter_cons_neg _ j L (show (P.board.getD j none == some 'N') = false by rw [hcell]; rfl),
            filter_cons_neg _ j L (show (P.board.getD j none == some 'B') = false by rw [hcell]; rfl),
            filter_cons_pos _ j L (show (P.board.getD j none == some 'R') = true by rw [hcell]; rfl),
            filter_cons_neg _ j L (show (P.board.getD j none == some 'Q') = false by rw [hcell]; rfl),
            filter_cons_neg _ j L (show (P.board.getD j none == some 'K') = false by rw [hcell]; rfl)]
        omega
      · rw [filter_cons_pos _ j L (show (P.board.getD j none).isSome = true by rw [hcell]; rfl),
            filter_cons_neg _ j L (show (P.board.getD j none == some 'p') = false by rw [hcell]; rfl),
            filter_cons_neg _ j L (show (P.board.getD j none == some 'n') = false by rw [hcell]; rfl),
            filter_cons_neg _ j L (show (P.board.getD j none == some 'b') = false by rw [hcell]; rfl),
            filter_cons_neg _ j L (show (P.board.getD j none == some 'r') = false by rw [hcell]; rfl),
            filter_cons_neg _ j L (show (P.board.getD j none == some 'q') = false by rw [hcell]; rfl),
            filter_cons_neg _ j L (show (P.board.getD j none == some 'k') = false by rw [hcell]; rfl),
            filter_cons_neg _ j L (show (P.board.getD j none == some 'P') = false by rw [hcell]; rfl),
            filter_cons_neg _ j L (show (P.board.getD j none == some 'N') = false by rw [hcell]; rfl),
            filter_cons_neg _ j L (show (P.board.getD j none == some 'B') = false by rw [hcell]; rfl),
            filter_cons_neg _ j L (show (P.board.getD j none == some 'R') = false by rw [hcell]; rfl),
            filter_cons_pos _ j L (show (P.board.getD j none == some 'Q') = true by rw [hcell]; rfl),
            filter_cons_neg _ j L (show (P.board.getD j none == some 'K') = false by rw [hcell]; rfl)]
        omega
      · rw [filter_cons_pos _ j L (show (P.board.getD j none).isSome = true by rw [hcell]; rfl),
            filter_cons_neg _ j L (show (P.board.getD j none == some 'p') = false by rw [hcell]; rfl),
            filter_cons_neg _ j L (show (P.board.getD j none == some 'n') = false by rw [hcell]; rfl),
            filter_cons_neg _ j L (show (P.board.getD j none == some 'b') = false by rw [hcell]; rfl),
            filter_cons_neg _ j L (show (P.board.getD j none == some 'r') = false by rw [hcell]; rfl),
            filter_cons_neg _ j L (show (P.board.getD j none == some 'q') = false by rw [hcell]; rfl),
            filter_cons_neg _ j L (show (P.board.getD j none == some 'k') = false by rw [hcell]; rfl),
            filter_cons_neg _ j L (show (P.board.getD j none == some 'P') = false by rw [hcell]; rfl),
            filter_cons_neg _ j L (show (P.board.getD j none == some 'N') = false by rw [hcell]; rfl),
            filter_cons_neg _ j L (show (P.board.getD j none == some 'B') = false by rw [hcell]; rfl),
            filter_cons_neg _ j L (show (P.board.getD j none == some 'R') = false by rw [hcell]; rfl),
            filter_cons_neg _ j L (show (P.board.getD j none == some 'Q') = false by rw [hcell]; rfl),
            filter_cons_pos _ j L (show (P.board.getD j none == some 'K') = true by rw [hcell]; rfl)]
        omega


theorem filter_partition (L : List Nat) (p q : Nat → Bool) :
    (L.filter (fun i => p i && q i)).length +
      (L.filter (fun i => p i && !q i)).length = (L.filter p).length := by
  induction L with
  | nil => rfl
  | cons j L ih =>
    by_cases hp : p j = true <;> by_cases hq : q j = true <;>
      simp [List.filter_cons, hp, hq] <;> omega

theorem filter_or_disjoint (L : List Nat) (p q : Nat → Bool)
    (hpq : ∀ i, ¬(p i = true ∧ q i = true)) :
    (L.filter (fun i => p i || q i)).length =
      (L.filter p).length + (L.filter q).length := by
  induction L with
  | nil => rfl
  | cons j L ih =>
    by_cases hp : p j = true <;> by_cases hq : q j = true
    · exact absurd ⟨hp, hq⟩ (hpq j)
    · simp [List.filter_cons, hp, hq]; omega
    · simp [List.filter_cons, hp, hq]; omega
    · simp [List.filter_cons, hp, hq]; omega

theorem filter_and_comm (L : List Nat) (p q : Nat → Bool) :
    L.filter (fun i => p i && q i) = (L.filter p).filter q := by
  induction L with
  | nil => rfl
  | cons j L ih =>
    by_cases hp : p j = true <;> by_cases hq : q j = true <;>
      simp [List.filter_cons, hp, hq, ih]

theorem all_same_iff (L : List Nat) (f : Nat → Bool) :
    ((L.all (fun i => f i == f (L.headD 0))) = true) ↔
      ((L.filter (fun i => !f i)).length = 0 ∨ (L.filter f).length = 0) := by
  cases L with
  | nil => simp
  | cons a L =>
    simp only [List.headD_cons]
    constructor
    · intro h
      have ha := List.all_eq_true.mp h
      cases hfa : f a
      · right
        rw [List.length_eq_zero, List.filter_eq_nil_iff]
        intro i hi hfi
        have := ha i hi
        rw [hfa] at this
        simp only [beq_iff_eq] at this
        rw [this] at hfi
        exact Bool.false_ne_true hfi
      · left
        rw [List.length_eq_zero, List.filter_eq_nil_iff]
        intro i hi hfi
        have := ha i hi
        rw [hfa] at this
        simp only [beq_iff_eq] at this
        rw [this] at hfi
        simp at hfi
    · intro h
      rcases h with h | h
      · rw [List.length_eq_zero, List.filter_eq_nil_iff] at h
        have hfa : f a = true := by
          have := h a (by simp)
          simpa using this
        rw [List.all_eq_true]
        intro i hi
        have hfi : f i = true := by
          have := h i hi
          simpa using this
        rw [hfi, hfa]
        rfl
      · rw [List.length_eq_zero, List.filter_eq_nil_iff] at h
        have hfa : f a = false := by
          have := h a (by simp)
          simpa using this
        rw [List.all_eq_true]
        intro i hi
        have hfi : f i = false := by
          have := h i hi
          simpa using this
        rw [hfi, hfa]
        rfl



theorem wf_symbols (P : Position) (hwf : wf P = true) :
    ∀ i ∈ List.range 128, ∀ pc, P.board.getD i none = some pc →
      isPieceSymbol pc = true := by
  unfold wf at hwf
  simp only [Bool.and_eq_true] at hwf
  have h := hwf.1.1.1.2
  rw [List.all_eq_true] at h
  intro i hi pc hpc
  have h2 := h i hi
  rw [hpc] at h2
  simp only [Bool.and_eq_true] at h2
  exact h2.2

theorem heavy_count_zero (P : Position) (c : Char)
    (hH : ∀ i ∈ List.range 128, heavyCell (P.board.getD i none) = false)
    (hc : heavyCell (some c) = true) :
    ((List.range 128).filter (fun i => P.board.getD i none == some c)).length = 0 := by
  rw [List.length_eq_zero, List.filter_eq_nil_iff]
  intro i hi hpc
  simp only [beq_iff_eq] at hpc
  have h2 := hH i hi
  rw [hpc, hc] at h2
  simp at h2

/-- C7 (amended): on every well-formed position carrying exactly one king
of each color, `is_insufficient_material` agrees with the spec predicate
(king versus king, king and one knight or bishop versus king, or kings plus
bishops all standing on squares of one color).  Without the one-king-each
hypothesis the claim fails, as theorem `C7_counterexample` shows on a
kingless two-knight board, because the code classifies any two-piece or
three-piece board as insufficient. -/
theorem C7_insufficient (P : Position) (hwf : wf P = true)
    (hk : oneKingEach P = true) :
    isInsufficientMaterial P = specInsufficient P := by
  have hv := wf_symbols P hwf
  unfold oneKingEach at hk
  simp only [Bool.and_eq_true, beq_iff_eq] at hk
  obtain ⟨hK, hk1⟩ := hk
  have hKf : ((List.range 128).filter
      (fun i => P.board.getD i none == some 'K')).length = 1 := hK
  have hkf : ((List.range 128).filter
      (fun i => P.board.getD i none == some 'k')).length = 1 := hk1
  by_cases hH : ∀ i ∈ List.range 128, heavyCell (P.board.getD i none) = false
  · have hocc := occ_split P (List.range 128) hv
    have hq0 := heavy_count_zero P 'q' hH (by decide)
    have hQ0 := heavy_count_zero P 'Q' hH (by decide)
    have hp0 := heavy_count_zero P 'p' hH (by decide)
    have hP0 := heavy_count_zero P 'P' hH (by decide)
    have hr0 := heavy_count_zero P 'r' hH (by decide)
    have hR0 := heavy_count_zero P 'R' hH (by decide)
    have hpart := filter_partition (List.range 128)
      (fun i => P.board.getD i none == some 'b' || P.board.getD i none == some 'B')
      (fun i => sqIsDark (fromX88 i))
    have hor : ((List.range 128).filter (fun i => P.board.getD i none == some 'b' ||
        P.board.getD i none == some 'B')).length =
        ((List.range 128).filter (fun i => P.board.getD i none == some 'b')).length +
        ((List.range 128).filter (fun i => P.board.getD i none == some 'B')).length :=
      filter_or_disjoint (List.range 128)
        (fun i => P.board.getD i none == some 'b')
        (fun i => P.board.getD i none == some 'B')
        (by
          intro i hcon
          obtain ⟨h1, h2⟩ := hcon
          simp only [beq_iff_eq] at h1 h2
          rw [h1] at h2
          exact absurd (Option.some.inj h2) (by decide))
    unfold isInsufficientMaterial
    rw [insufficient_fold P (List.range 128) hH 0 0 0 0 0]
    dsimp only
    split_ifs with c1 c2 c3
    · simp only [beq_iff_eq] at c1
      symm
      unfold specInsufficient
      have h1 : (specHeavy P == 0) = true := by
        unfold specHeavy countPiece
        simp only [beq_iff_eq]
        omega
      have h2 : (specKnights P == 0) = true := by
        unfold specKnights countPiece
        simp only [beq_iff_eq]
        omega
      have h3 : (specBishops P == 0) = true := by
        unfold specBishops countPiece
        simp only [beq_iff_eq]
        omega
      rw [h1, h2, h3]
      rfl
    · simp only [beq_iff_eq] at c1 c2
      symm
      unfold specInsufficient
      have h1 : (specHeavy P == 0) = true := by
        unfold specHeavy countPiece
        simp only [beq_iff_eq]
        omega
      rw [h1]
      have hcase : (specKnights P = 1 ∧ specBishops P = 0) ∨
          (specKnights P = 0 ∧ specBishops P = 1) := by
        unfold specKnights specBishops countPiece
        omega
      rcases hcase with ⟨ha, hb⟩ | ⟨ha, hb⟩
      · have e1 : (specKnights P == 0) = false := by simp [ha]
        have e2 : (specKnights P == 1) = true := by simp [ha]
        have e3 : (specBishops P == 0) = true := by simp [hb]
        rw [e1, e2, e3]
        rfl
      · have e1 : (specKnights P == 0) = true := by simp [ha]
        have e2 : (specKnights P == 1) = false := by simp [ha]
        have e3 : (specBishops P == 0) = false := by simp [hb]
        have e4 : (specBishops P == 1) = true := by simp [hb]
        rw [e1, e2, e3, e4]
        rfl
    · simp only [beq_iff_eq] at c1 c2 c3
      have hkn : specKnights P = 0 := by
        unfold specKnights countPiece
        omega
      have hbi2 : 2 ≤ specBishops P := by
        unfold specBishops countPiece
        omega
      have hLD : ((List.range 128).filter (fun i => (P.board.getD i none == some 'b' ||
          P.board.getD i none == some 'B') && !sqIsDark (fromX88 i))).length +
          ((List.range 128).filter (fun i => (P.board.getD i none == some 'b' ||
          P.board.getD i none == some 'B') && sqIsDark (fromX88 i))).length =
          specBishops P := by
        unfold specBishops countPiece
        omega
      unfold specInsufficient
      have h1 : (specHeavy P == 0) = true := by
        unfold specHeavy countPiece
        simp only [beq_iff_eq]
        omega
      have h2 : (specKnights P == 0) = true := by simp [hkn]
      have h3 : (specKnights P == 1) = false := by simp [hkn]
      have h4 : (specBishops P == 0) = false := by
        simp only [beq_eq_false_iff_ne, ne_eq]
        omega
      have h5 : (specBishops P == 1) = false := by
        simp only [beq_eq_false_iff_ne, ne_eq]
        omega
      have h6 : decide (1 ≤ specBishops P) = true := by
        simp only [decide_eq_true_eq]
        omega
      rw [h1, h2, h3, h4, h5, h6]
      have hbsL : (List.range 128).filter (fun i => (P.board.getD i none == some 'b' ||
          P.board.getD i none == some 'B') && !sqIsDark (fromX88 i)) =
          (bishopSlots P).filter (fun i => !sqIsDark (fromX88 i)) := by
        rw [filter_and_comm]
        unfold bishopSlots
        rfl
      have hbsD : (List.range 128).filter (fun i => (P.board.getD i none == some 'b' ||
          P.board.getD i none == some 'B') && sqIsDark (fromX88 i)) =
          (bishopSlots P).filter (fun i => sqIsDark (fromX88 i)) := by
        rw [filter_and_comm]
        unfold bishopSlots
        rfl
      have hsc := all_same_iff (bishopSlots P) (fun i => sqIsDark (fromX88 i))
      cases hscv : specSameColor P with
      | false =>
        unfold specSameColor at hscv
        have hnor : ¬((((bishopSlots P).filter
              (fun i => !sqIsDark (fromX88 i))).length = 0) ∨
            (((bishopSlots P).filter (fun i => sqIsDark (fromX88 i))).length = 0)) := by
          intro hor2
          have hx := hsc.mpr hor2
          rw [hscv] at hx
          simp at hx
        push_neg at hnor
        obtain ⟨hL0, hD0⟩ := hnor
        rw [← hbsL] at hL0
        rw [← hbsD] at hD0
        have e1 : ((0:Int) + ↑((List.range 128).filter
            (fun i => (P.board.getD i none == some 'b' ||
            P.board.getD i none == some 'B') && !sqIsDark (fromX88 i))).length
            != 0) = true := by
          simp only [bne_iff_ne, ne_eq]
          omega
        have e2 : ((0:Int) + ↑((List.range 128).filter
            (fun i => (P.board.getD i none == some 'b' ||
            P.board.getD i none == some 'B') && sqIsDark (fromX88 i))).length
            == 0) = false := by
          simp only [beq_eq_false_iff_ne, ne_eq]
          omega
        have e3 : ((0:Int) + ↑((List.range 128).filter
            (fun i => (P.board.getD i none == some 'b' ||
            P.board.getD i none == some 'B') && sqIsDark (fromX88 i))).length
            != 0) = true := by
          simp only [bne_iff_ne, ne_eq]
          omega
        have e4 : ((0:Int) + ↑((List.range 128).filter
            (fun i => (P.board.getD i none == some 'b' ||
            P.board.getD i none == some 'B') && !sqIsDark (fromX88 i))).length
            == 0) = false := by
          simp only [beq_eq_false_iff_ne, ne_eq]
          omega
        rw [e1, e2, e3, e4]
        rfl
      | true =>
        unfold specSameColor at hscv
        rcases hsc.mp hscv with hL0 | hD0
        · rw [← hbsL] at hL0
          have hD0 : ((List.range 128).filter
              (fun i => (P.board.getD i none == some 'b' ||
              P.board.getD i none == some 'B') && sqIsDark (fromX88 i))).length ≠ 0 := by
            omega
          have e1 : ((0:Int) + ↑((List.range 128).filter
              (fun i => (P.board.getD i none == some 'b' ||
              P.board.getD i none == some 'B') && !sqIsDark (fromX88 i))).length
              != 0) = false := by
            simp only [bne_eq_false_iff_eq]
            omega
          have e2 : ((0:Int) + ↑((List.range 128).filter
              (fun i => (P.board.getD i none == some 'b' ||
              P.board.getD i none == some 'B') && sqIsDark (fromX88 i))).length
              != 0) = true := by
            simp only [bne_iff_ne, ne_eq]
            omega
          have e3 : ((0:Int) + ↑((List.range 128).filter
              (fun i => (P.board.getD i none == some 'b' ||
              P.board.getD i none == some 'B') && !sqIsDark (fromX88 i))).length
              == 0) = true := by
            simp only [beq_iff_eq]
            omega
          rw [e1, e2, e3]
          rfl
        · rw [← hbsD] at hD0
          have hL0 : ((List.range 128).filter
              (fun i => (P.board.getD i none == some 'b' ||
              P.board.getD i none == some 'B') && !sqIsDark (fromX88 i))).length ≠ 0 := by
            omega
          have e1 : ((0:Int) + ↑((List.range 128).filter
              (fun i => (P.board.getD i none == some 'b' ||
              P.board.getD i none == some 'B') && !sqIsDark (fromX88 i))).length
              != 0) = true := by
            simp only [bne_iff_ne, ne_eq]
            omega
          have e2 : ((0:Int) + ↑((List.range 128).filter
              (fun i => (P.board.getD i none == some 'b' ||
              P.board.getD i none == some 'B') && sqIsDark (fromX88 i))).length
              == 0) = true := by
            simp only [beq_iff_eq]
            omega
          rw [e1, e2]
          rfl
    · simp only [beq_iff_eq] at c1 c2 c3
      symm
      unfold specInsufficient
      have h2 : (specKnights P == 0) = false := by
        simp only [beq_eq_false_iff_ne, ne_eq]
        unfold specKnights countPiece
        omega
      have h3 : (specKnights P == 1 && specBishops P == 0) = false := by
        by_cases hx : specKnights P = 1
        · have hy : (specBishops P == 0) = false := by
            simp only [beq_eq_false_iff_ne, ne_eq]
            unfold specKnights countPiece at hx
            unfold specBishops countPiece
            omega
          rw [hy, Bool.and_false]
        · have hy : (specKnights P == 1) = false := by simp [hx]
          rw [hy, Bool.false_and]
      rw [h2, h3]
      simp
  · push_neg at hH
    obtain ⟨i, hiR, hhv⟩ := hH
    have hhv2 : heavyCell (P.board.getD i none) = true := by
      cases hcv : heavyCell (P.board.getD i none)
      · exact absurd hcv hhv
      · rfl
    unfold isInsufficientMaterial
    rw [insufficient_fold_heavy P (List.range 128) _ ⟨i, hiR, hhv2⟩]
    have hpos : 0 < specHeavy P := by
      unfold heavyCell at hhv2
      simp only [Bool.or_eq_true, beq_iff_eq] at hhv2
      unfold specHeavy countPiece
      rcases hhv2 with ((((h | h) | h) | h) | h) | h
      · have hmem : 0 < ((List.range 128).filter
            (fun j => P.board.getD j none == some 'q')).length :=
          List.length_pos.mpr (List.ne_nil_of_mem
            (List.mem_filter.mpr ⟨hiR, beq_iff_eq.mpr h⟩))
        omega
      · have hmem : 0 < ((List.range 128).filter
            (fun j => P.board.getD j none == some 'Q')).length :=
          List.length_pos.mpr (List.ne_nil_of_mem
            (List.mem_filter.mpr ⟨hiR, beq_iff_eq.mpr h⟩))
        omega
      · have hmem : 0 < ((List.range 128).filter
            (fun j => P.board.getD j none == some 'p')).length :=
          List.length_pos.mpr (List.ne_nil_of_mem
            (List.mem_filter.mpr ⟨hiR, beq_iff_eq.mpr h⟩))
        omega
      · have hmem : 0 < ((List.range 128).filter
            (fun j => P.board.getD j none == some 'P')).length :=
          List.length_pos.mpr (List.ne_nil_of_mem
            (List.mem_filter.mpr ⟨hiR, beq_iff_eq.mpr h⟩))
        omega
      · have hmem : 0 < ((List.range 128).filter
            (fun j => P.board.getD j none == some 'r')).length :=
          List.length_pos.mpr (List.ne_nil_of_mem
            (List.mem_filter.mpr ⟨hiR, beq_iff_eq.mpr h⟩))
        omega
      · have hmem : 0 < ((List.range 128).filter
            (fun j => P.board.getD j none == some 'R')).length :=
          List.length_pos.mpr (List.ne_nil_of_mem
            (List.mem_filter.mpr ⟨hiR, beq_iff_eq.mpr h⟩))
        omega
    have hspec : specInsufficient P = false := by
      unfold specInsufficient
      have hx : (specHeavy P == 0) = false := by
        simp only [beq_eq_false_iff_ne, ne_eq]
        omega
      rw [hx, Bool.false_and]
    rw [hspec]



/-- C7 witness: the king-versus-king fixture satisfies the hypotheses and
the two insufficiency predicates agree on it. -/
theorem C7_witness :
    wf kvkPos = true ∧ oneKingEach kvkPos = true ∧
      isInsufficientMaterial kvkPos = specInsufficient kvkPos :=
  ⟨by decide, by decide, C7_insufficient kvkPos (by decide) (by decide)⟩

theorem fromX88_lt (n : Nat) : fromX88 n < 64 := by
  unfold fromX88
  omega

theorem fromX88E_elim (x : Int) (t : Nat) (h : fromX88E x = .ok t) :
    0 ≤ x ∧ x.toNat < 128 ∧ x.toNat % 16 < 8 ∧ t = fromX88 x.toNat := by
  unfold fromX88E at h
  split at h
  · simp at h
  · rename_i hc
    simp only [Except.ok.injEq] at h
    simp only [Bool.or_eq_true, not_or, decide_eq_true_eq, bne_iff_ne, ne_eq,
      not_not, not_lt] at hc
    obtain ⟨⟨hge, hle⟩, hand⟩ := hc
    have h128 : x.toNat < 128 := by
      by_cases he : x.toNat = 128
      · rw [he] at hand
        exact absurd hand (by decide)
      · omega
    exact ⟨by omega, h128, (land136_mod _ h128).mp hand, h.symm⟩

theorem promo_bound (s : Nat) (o : Int)
    (ho : o = 16 ∨ o = -16 ∨ o = 17 ∨ o = -17 ∨ o = 15 ∨ o = -15)
    (h0 : 0 ≤ (x88Index s : Int) + o)
    (h1 : ((x88Index s : Int) + o).toNat < 128)
    (h2 : ((x88Index s : Int) + o).toNat % 16 < 8)
    (hbr : sqIsBackrank (fromX88 ((x88Index s : Int) + o).toNat) = true) :
    s < 64 := by
  unfold sqIsBackrank at hbr
  simp only [Bool.or_eq_true, beq_iff_eq] at hbr
  unfold fromX88 sqRank at hbr
  unfold x88Index sqFile sqRank at *
  rcases ho with rfl | rfl | rfl | rfl | rfl | rfl <;> omega

theorem mem_foldl_append {β : Type} (l : List β) (g : β → List Move)
    (acc : List Move) (m : Move)
    (h : m ∈ l.foldl (fun acc o => acc ++ g o) acc) :
    m ∈ acc ∨ ∃ o ∈ l, m ∈ g o := by
  induction l generalizing acc with
  | nil => exact Or.inl h
  | cons b l ih =>
    rw [List.foldl_cons] at h
    rcases ih (acc ++ g b) h with h2 | ⟨o, ho, hm⟩
    · rcases List.mem_append.mp h2 with h3 | h3
      · exact Or.inl h3
      · exact Or.inr ⟨b, by simp, h3⟩
    · exact Or.inr ⟨o, by simp [ho], hm⟩

theorem slideGo_promo (P : Position) (sq : Nat) (off : Int) (single : Bool)
    (fuel : Nat) (ti : Int) (m : Move) (h : m ∈ slideGo P sq off single fuel ti) :
    m.promotion = charZero := by
  induction fuel generalizing ti with
  | zero => simp [slideGo] at h
  | succ fuel ih =>
    unfold slideGo at h
    dsimp only at h
    by_cases hob : (!onBoardX88 (ti + off)) = true
    · rw [if_pos hob] at h
      simp at h
    · rw [if_neg hob] at h
      cases hg : P.get (fromX88 (ti + off).toNat) with
      | some tp =>
        rw [hg] at h
        dsimp only at h
        by_cases hcol : (pieceColor tp != P.turn) = true
        · rw [if_pos hcol] at h
          simp at h
          subst h
          rfl
        · rw [if_neg hcol] at h
          simp at h
      | none =>
        rw [hg] at h
        dsimp only at h
        rcases List.mem_cons.mp h with rfl | h2
        · rfl
        · rcases mem_ite_list h2 with ⟨-, h3⟩ | ⟨-, h3⟩
          · simp at h3
          · exact ih _ h3

theorem castleMoves_promo (P : Position) (m : Move) (h : m ∈ castleMoves P) :
    m.promotion = charZero := by
  unfold castleMoves at h
  dsimp only at h
  rcases List.mem_append.mp h with h2 | h2 <;>
    (rcases mem_ite_list h2 with ⟨-, h3⟩ | ⟨-, h3⟩
     · rcases mem_ite_list h3 with ⟨-, h4⟩ | ⟨-, h4⟩
       · simp at h4
         subst h4
         rfl
       · simp at h4
     · simp at h3)

theorem gen_nonpawn_promo (P : Position) (sq : Nat) (pc : Char) (ms : List Move)
    (m : Move) (hpc : P.get sq = some pc) (hcol : pieceColor pc = P.turn)
    (hnp : pieceType pc ≠ 'p')
    (hg : generateFromSquare P sq = .ok ms) (hm : m ∈ ms) :
    m.promotion = charZero := by
  unfold generateFromSquare at hg
  rw [hpc] at hg
  dsimp only at hg
  rw [if_neg (by simp [hcol])] at hg
  rw [if_neg (by simp [hnp])] at hg
  simp only [exc_bind_ok, exc_pure, Except.ok.injEq] at hg
  subst hg
  rcases List.mem_append.mp hm with h2 | h2
  · rcases mem_foldl_append _ _ _ _ h2 with h3 | ⟨o, -, h3⟩
    · simp at h3
    · exact slideGo_promo P sq o _ 8 _ m h3
  · split at h2
    · exact castleMoves_promo P m h2
    · simp at h2

theorem applyPromoStep_fst (piece : Char) (m : Move) (st : MoveInfo × Position) :
    (applyPromoStep piece m st).1 = st.1 := by
  unfold applyPromoStep
  split <;> rfl

theorem applyPawnStep_flags (piece : Char) (m : Move) (st : MoveInfo × Position) :
    (applyPawnStep piece m st).1.is_kingside_castle = st.1.is_kingside_castle ∧
    (applyPawnStep piece m st).1.is_queenside_castle = st.1.is_queenside_castle ∧
    (applyPawnStep piece m st).1.piece = st.1.piece := by
  unfold applyPawnStep
  split
  · dsimp only
    split <;> split <;> exact ⟨rfl, rfl, rfl⟩
  · exact ⟨rfl, rfl, rfl⟩

theorem applyPawnStep_ep_false (piece : Char) (m : Move) (st : MoveInfo × Position)
    (hc : (sqFile m.target != sqFile m.source && st.1.captured.isNone) = false) :
    (applyPawnStep piece m st).1.is_enpassant = st.1.is_enpassant := by
  unfold applyPawnStep
  split
  · dsimp only
    rw [hc]
    split <;> rfl
  · rfl



theorem mem_pushes_promo (P : Position) (s : Nat) (pushes : List Move) (m : Move)
    (h : pawnPushes P s = .ok pushes) (hm : m ∈ pushes)
    (hpr : m.promotion ≠ charZero) :
    ∃ t, m = ⟨s, t, m.promotion⟩ ∧ sqIsBackrank t = true ∧ P.get t = none ∧
      fromX88E ((x88Index s : Int) + (if P.turn = 'b' then 16 else -16)) = .ok t := by
  unfold pawnPushes at h
  simp only [beq_iff_eq] at h
  cases ht : fromX88E ((x88Index s : Int) + (if P.turn = 'b' then 16 else -16)) with
  | error e => rw [ht] at h; simp at h
  | ok t =>
    rw [ht] at h
    simp only [exc_bind_ok] at h
    split at h
    · rename_i hemp
      split at h
      · rename_i hbr
        simp only [exc_pure, Except.ok.injEq] at h
        subst h
        simp only [promoVariants, List.mem_cons, List.not_mem_nil, or_false] at hm
        rcases hm with h1 | h1 | h1 | h1 <;>
          (subst h1; exact ⟨t, rfl, hbr, by simpa using hemp, rfl⟩)
      · split at h
        · cases ht2 : fromX88E ((x88Index s : Int) +
              (if P.turn = 'b' then 32 else -32)) with
          | error e => rw [ht2] at h; simp at h
          | ok t2 =>
            rw [ht2] at h
            simp only [exc_bind_ok] at h
            split at h
            · simp only [exc_pure, Except.ok.injEq] at h
              subst h
              simp [mkMove] at hm
              rcases hm with h1 | h1 <;> (subst h1; exact absurd rfl hpr)
            · simp only [exc_pure, Except.ok.injEq] at h
              subst h
              simp [mkMove] at hm
              subst hm
              exact absurd rfl hpr
        · simp only [exc_pure, Except.ok.injEq] at h
          subst h
          simp [mkMove] at hm
          subst hm
          exact absurd rfl hpr
    · simp only [exc_pure, Except.ok.injEq] at h
      subst h
      simp at hm

theorem mem_capture_promo (P : Position) (s : Nat) (off : Int) (m : Move)
    (hm : m ∈ pawnCapture P s off) (hpr : m.promotion ≠ charZero) :
    ∃ t tp, m = ⟨s, t, m.promotion⟩ ∧
      onBoardX88 ((x88Index s : Int) + (if P.turn = 'b' then off else -off)) = true ∧
      t = fromX88 ((x88Index s : Int) + (if P.turn = 'b' then off else -off)).toNat ∧
      sqIsBackrank t = true ∧ P.get t = some tp := by
  unfold pawnCapture at hm
  dsimp only at hm
  simp only [beq_iff_eq] at hm
  by_cases hob : onBoardX88 ((x88Index s : Int) +
      (if P.turn = 'b' then off else -off)) = true
  · rw [hob] at hm
    simp only [Bool.not_true] at hm
    rw [if_neg (by simp)] at hm
    cases hg : P.get (fromX88 ((x88Index s : Int) +
        (if P.turn = 'b' then off else -off)).toNat) with
    | some tp =>
      rw [hg] at hm
      dsimp only at hm
      rcases mem_ite_list hm with ⟨-, hm⟩ | ⟨-, hm⟩
      · rcases mem_ite_list hm with ⟨hbr, hm⟩ | ⟨-, hm⟩
        · simp only [promoVariants, List.mem_cons, List.not_mem_nil, or_false] at hm
          rcases hm with h1 | h1 | h1 | h1 <;>
            (subst h1; exact ⟨_, tp, rfl, hob, rfl, hbr, hg⟩)
        · simp [mkMove] at hm
          subst hm
          exact absurd rfl hpr
      · rcases mem_ite_list hm with ⟨-, hm⟩ | ⟨-, hm⟩
        · simp [mkMove] at hm
          subst hm
          exact absurd rfl hpr
        · simp at hm
    | none =>
      rw [hg] at hm
      dsimp only at hm
      rcases mem_ite_list hm with ⟨-, hm⟩ | ⟨-, hm⟩
      · simp [mkMove] at hm
        subst hm
        exact absurd rfl hpr
      · simp at hm
  · simp only [Bool.not_eq_true] at hob
    rw [hob] at hm
    simp at hm



theorem makeMove_san_structure (P : Position) (m : Move)
    (r' r0 : MoveInfo × Position)
    (h : makeMove P m = .ok r')
    (ha : makeUnvalidatedMoveFast P m = .ok r0)
    (hks : r0.1.is_kingside_castle = false)
    (hqs : r0.1.is_queenside_castle = false)
    (hep : r0.1.is_enpassant = false)
    (hpawn : pieceType r0.1.piece = 'p') :
    ∃ d c suf, r'.1.san = d ++ c ++ sqName m.target ++ suf ∧
      (d = sqName m.source ∨
       d = [Char.ofNat (Char.toNat '1' + sqRank m.source)] ∨
       d = [Char.ofNat (Char.toNat 'a' + sqFile m.source)] ∨ d = []) ∧
      (c = [Char.ofNat (Char.toNat 'a' + sqFile m.source), 'x'] ∨
       c = ['x'] ∨ c = []) ∧
      (suf = ['#'] ∨ suf = ['+'] ∨ suf = []) := by
  unfold makeMove at h
  cases hl : legalContains P m with
  | error e => rw [hl] at h; simp at h
  | ok b =>
    rw [hl] at h
    cases b with
    | false => simp at h
    | true =>
      simp only [exc_bind_ok, Bool.not_true] at h
      rw [if_neg (by simp)] at h
      rw [ha] at h
      simp only [exc_bind_ok] at h
      cases hc : isCheck r0.2 with
      | error e => rw [hc] at h; simp at h
      | ok chk =>
        rw [hc] at h
        simp only [exc_bind_ok] at h
        cases hmt : isCheckmate r0.2 with
        | error e => rw [hmt] at h; simp at h
        | ok mate =>
          rw [hmt] at h
          simp only [exc_bind_ok] at h
          dsimp only at h
          rw [if_neg (by simp [hks]), if_neg (by simp [hqs])] at h
          cases hll : legalList P with
          | error e => rw [hll] at h; simp at h
          | ok lm =>
            rw [hll] at h
            simp only [exc_bind_ok, exc_pure, Except.ok.injEq] at h
            subst h
            dsimp only
            have hepL : (if r0.1.is_enpassant = true then (" (e.p.)").toList else []) =
                ([] : List Char) := by
              rw [hep]
              simp
            rw [if_neg (by simp [hpawn]), hepL]
            refine ⟨if ((disambigFlags r0.2 r0.1.piece m lm).2.1 &&
                (disambigFlags r0.2 r0.1.piece m lm).2.2) = true then sqName m.source
              else if (disambigFlags r0.2 r0.1.piece m lm).2.2 = true then
                [Char.ofNat (Char.toNat '1' + sqRank m.source)]
              else if ((disambigFlags r0.2 r0.1.piece m lm).2.1 ||
                  (disambigFlags r0.2 r0.1.piece m lm).1) = true then
                [Char.ofNat (Char.toNat 'a' + sqFile m.source)]
              else [],
              if r0.1.captured.isSome = true then
                (if (pieceType r0.1.piece == 'p') = true then
                  [Char.ofNat (Char.toNat 'a' + sqFile m.source)]
                else []) ++ ['x']
              else [],
              if mate = true then ['#'] else if chk = true then ['+'] else [],
              ?_, ?_, ?_, ?_⟩
            · simp [List.append_assoc]
            · split_ifs <;> tauto
            · split_ifs <;> simp
            · split_ifs <;> simp



theorem sqName_no_eq : ∀ t, t < 64 → ('=') ∉ sqName t := by decide

theorem rankChar_ne_eq : ∀ k, k < 8 → Char.ofNat (Char.toNat '1' + k) ≠ '=' := by decide

theorem fileChar_ne_eq : ∀ k, k < 8 → Char.ofNat (Char.toNat 'a' + k) ≠ '=' := by decide

theorem c8_tail (P : Position) (m : Move) (r r0 : MoveInfo × Position) (pc : Char)
    (h : makeMove P m = .ok r)
    (ha : makeUnvalidatedMoveFast P m = .ok r0)
    (hsrc : P.get m.source = some pc)
    (hpw : pieceType pc = 'p')
    (hs64 : m.source < 64) (ht64 : m.target < 64)
    (hcond : (sqFile m.target != sqFile m.source &&
      ((applyBaseStep P m pc).1.captured).isNone) = false) :
    ∃ pre suf, r.1.san = pre ++ sqName m.target ++ suf ∧
      (suf = [] ∨ suf = ['+'] ∨ suf = ['#']) ∧ ('=') ∉ r.1.san := by
  have hchain : r0 = applyRightsStep (applyPlyStep (applyHalfStep pc
      (applyCastleStep pc m (applyPromoStep pc m
        (applyPawnStep pc m (applyBaseStep P m pc)))))) := by
    unfold makeUnvalidatedMoveFast at ha
    rw [hsrc] at ha
    dsimp only at ha
    exact (Except.ok.inj ha).symm
  have h6 := applyRightsStep_parts (applyPlyStep (applyHalfStep pc
      (applyCastleStep pc m (applyPromoStep pc m
        (applyPawnStep pc m (applyBaseStep P m pc))))))
  have h5 := applyPlyStep_parts (applyHalfStep pc
      (applyCastleStep pc m (applyPromoStep pc m
        (applyPawnStep pc m (applyBaseStep P m pc)))))
  have hcst := applyCastleStep_id pc m
      (applyPromoStep pc m (applyPawnStep pc m (applyBaseStep P m pc))) hpw
  have hpromo1 := applyPromoStep_fst pc m (applyPawnStep pc m (applyBaseStep P m pc))
  have hflags := applyPawnStep_flags pc m (applyBaseStep P m pc)
  have hepf := applyPawnStep_ep_false pc m (applyBaseStep P m pc) hcond
  have hr1 : r0.1 = (applyPawnStep pc m (applyBaseStep P m pc)).1 := by
    rw [hchain, h6.1, h5.1, hcst,
        (applyHalfStep_parts pc (applyPromoStep pc m
          (applyPawnStep pc m (applyBaseStep P m pc)))).1,
        hpromo1]
  have hks : r0.1.is_kingside_castle = false := by rw [hr1, hflags.1]; rfl
  have hqs : r0.1.is_queenside_castle = false := by rw [hr1, hflags.2.1]; rfl
  have hepr : r0.1.is_enpassant = false := by rw [hr1, hepf]; rfl
  have hpiece : pieceType r0.1.piece = 'p' := by
    rw [hr1, hflags.2.2]
    exact hpw
  obtain ⟨d, c, suf, hsan, hd, hc, hsuf⟩ :=
    makeMove_san_structure P m r r0 h ha hks hqs hepr hpiece
  have hrank : sqRank m.source < 8 := by unfold sqRank; omega
  have hfile : sqFile m.source < 8 := by unfold sqFile; omega
  refine ⟨d ++ c, suf, by rw [hsan, List.append_assoc], ?_, ?_⟩
  · rcases hsuf with rfl | rfl | rfl
    · exact Or.inr (Or.inr rfl)
    · exact Or.inr (Or.inl rfl)
    · exact Or.inl rfl
  · rw [hsan]
    intro hin
    simp only [List.mem_append] at hin
    rcases hin with ((hin | hin) | hin) | hin
    · rcases hd with rfl | rfl | rfl | rfl
      · exact sqName_no_eq m.source hs64 hin
      · simp only [List.mem_singleton] at hin
        exact rankChar_ne_eq (sqRank m.source) hrank hin.symm
      · simp only [List.mem_singleton] at hin
        exact fileChar_ne_eq (sqFile m.source) hfile hin.symm
      · simp at hin
    · rcases hc with rfl | rfl | rfl
      · simp only [List.mem_cons, List.not_mem_nil, or_false] at hin
        rcases hin with hin | hin
        · exact fileChar_ne_eq (sqFile m.source) hfile hin.symm
        · exact absurd hin (by decide)
      · simp only [List.mem_singleton] at hin
        exact absurd hin (by decide)
      · simp at hin
    · exact sqName_no_eq m.target ht64 hin
    · rcases hsuf with rfl | rfl | rfl
      · simp only [List.mem_singleton] at hin
        exact absurd hin (by decide)
      · simp only [List.mem_singleton] at hin
        exact absurd hin (by decide)
      · simp at hin



/-- C8: through `make_move`, a promotion move's SAN string carries no
promotion notation: it is a prefix of source-disambiguation and capture
marks followed by the target square name and at most a check or checkmate
suffix, and the character = never occurs in it. -/
theorem C8_promotion_san (P : Position) (m : Move) (r : MoveInfo × Position)
    (h : makeMove P m = .ok r) (hpr : m.promotion ≠ charZero) :
    ∃ pre suf, r.1.san = pre ++ sqName m.target ++ suf ∧
      (suf = [] ∨ suf = ['+'] ∨ suf = ['#']) ∧ ('=') ∉ r.1.san := by
  obtain ⟨hl, i, ha2⟩ := makeMove_ok_parts P m r h
  cases ha : makeUnvalidatedMoveFast P m with
  | error e => rw [ha] at ha2; simp at ha2
  | ok r0 =>
    obtain ⟨hp, -⟩ := legalContains_true P m hl
    obtain ⟨pc, ms, hsrc, hcol, hg, hmem⟩ := pseudoContains_elim P m hp
    by_cases hpw : pieceType pc = 'p'
    case neg =>
      exact absurd (gen_nonpawn_promo P m.source pc ms m hsrc hcol hpw hg hmem) hpr
    case pos =>
      obtain ⟨pushes, hpp, hms⟩ := generate_pawn_decomp P m.source pc ms hsrc hcol hpw hg
      subst hms
      rw [List.mem_append, List.mem_append] at hmem
      rcases hmem with (hmem | hmem) | hmem
      · obtain ⟨t, hmk, hbr, hemp, ht⟩ :=
          mem_pushes_promo P m.source pushes m hpp hmem hpr
        have htgt : m.target = t := by rw [hmk]
        obtain ⟨h0, h1, h2, hT⟩ := fromX88E_elim _ t ht
        rw [hT] at hbr
        have hs64 : m.source < 64 :=
          promo_bound m.source _ (by split <;> simp) h0 h1 h2 hbr
        have ht64 : m.target < 64 := by rw [htgt, hT]; exact fromX88_lt _
        have hfileq : sqFile m.target = sqFile m.source :=
          mem_pawnPushes_file P m.source pushes m hpp hmem
        have hcond : (sqFile m.target != sqFile m.source &&
            ((applyBaseStep P m pc).1.captured).isNone) = false := by
          simp [hfileq]
        exact c8_tail P m r r0 pc h ha hsrc hpw hs64 ht64 hcond
      · obtain ⟨t, tp, hmk, hob, hT, hbr, hcap⟩ :=
          mem_capture_promo P m.source 17 m hmem hpr
        have htgt : m.target = t := by rw [hmk]
        obtain ⟨h0, h1, h2, h3⟩ := onBoard_elim _ hob
        rw [hT] at hbr
        have hs64 : m.source < 64 :=
          promo_bound m.source _ (by split <;> simp) h0 h3 h2 hbr
        have ht64 : m.target < 64 := by rw [htgt, hT]; exact fromX88_lt _
        have hcapb : (applyBaseStep P m pc).1.captured = some tp := by
          show P.get m.target = some tp
          rw [htgt]
          exact hcap
        have hcond : (sqFile m.target != sqFile m.source &&
            ((applyBaseStep P m pc).1.captured).isNone) = false := by
          simp [hcapb]
        exact c8_tail P m r r0 pc h ha hsrc hpw hs64 ht64 hcond
      · obtain ⟨t, tp, hmk, hob, hT, hbr, hcap⟩ :=
          mem_capture_promo P m.source 15 m hmem hpr
        have htgt : m.target = t := by rw [hmk]
        obtain ⟨h0, h1, h2, h3⟩ := onBoard_elim _ hob
        rw [hT] at hbr
        have hs64 : m.source < 64 :=
          promo_bound m.source _ (by split <;> simp) h0 h3 h2 hbr
        have ht64 : m.target < 64 := by rw [htgt, hT]; exact fromX88_lt _
        have hcapb : (applyBaseStep P m pc).1.captured = some tp := by
          show P.get m.target = some tp
          rw [htgt]
          exact hcap
        have hcond : (sqFile m.target != sqFile m.source &&
            ((applyBaseStep P m pc).1.captured).isNone) = false := by
          simp [hcapb]
        exact c8_tail P m r r0 pc h ha hsrc hpw hs64 ht64 hcond

/-- C8 witness: the promotion a7a8q on the promotion fixture succeeds and
its SAN satisfies the structure (it evaluates to the bare "a8"). -/
theorem C8_witness :
    makeMove promoPos promoMove =
      .ok ((makeMove promoPos promoMove).toOption.getD dummyResult) ∧
    promoMove.promotion ≠ charZero ∧
    (∃ pre suf, ((makeMove promoPos promoMove).toOption.getD dummyResult).1.san =
        pre ++ sqName promoMove.target ++ suf ∧
      (suf = [] ∨ suf = ['+'] ∨ suf = ['#']) ∧
      ('=') ∉ ((makeMove promoPos promoMove).toOption.getD dummyResult).1.san) :=
  ⟨by decide, by decide,
   C8_promotion_san promoPos promoMove _ (by decide) (by decide)⟩



end Libchess
